import Mathlib

/-!
# Verification development for `cube.c`

`cube.c` is an OpenCL host program. It fills an array of `DATA_SIZE` integers,
ships it to a GPU, runs the `cube` kernel over it, reads the result back and
counts how many elements equal the cube of their input.

The embedding has three layers.

* Machine arithmetic and array accesses: `int` is an `Int` reduced to the signed
  32-bit range, `unsigned int` is a `Nat` reduced modulo `2^32`, an array is a
  `List Int` and an access outside its bounds is a fault.
* The device program `cube` and the two host loops (fill, verification).
* `main`: the OpenCL runtime is external, so every call site of the API reads its
  outcome from a record `Outcomes`; `main` returns the list of API calls it
  issued, the exit status and the host arrays.
-/

namespace Cube

/-! ## Machine integers -/

/-- Value of a mathematical integer stored into a 32-bit signed `int`
(two's complement wraparound). -/
def toInt32 (x : Int) : Int := (x + 2147483648) % 4294967296 - 2147483648

/-- Value of an `int` converted to `unsigned int`. -/
def toUInt32 (x : Int) : Nat := (x % 4294967296).toNat

/-- Multiplication of two `int` values with 32-bit wraparound. -/
def mul32 (a b : Int) : Int := toInt32 (a * b)

/-- The expression `x * x * x` on `int`, as written in the kernel and in the
verification loop (left associative). -/
def cube32 (x : Int) : Int := mul32 (mul32 x x) x

/-! ## Arrays -/

/-- Ways in which a run of a loop or of the kernel yields no result. -/
inductive Err
  | outOfBounds
  | outOfFuel
  deriving DecidableEq, Repr

deriving instance DecidableEq for Except

/-- Read of `a[i]` where `i` is an `int`. -/
def load (a : List Int) (i : Int) : Except Err Int :=
  if 0 ≤ i ∧ i.toNat < a.length then Except.ok (a.getD i.toNat 0)
  else Except.error Err.outOfBounds

/-- Write `a[i] = v` where `i` is an `int`. -/
def store (a : List Int) (i : Int) (v : Int) : Except Err (List Int) :=
  if 0 ≤ i ∧ i.toNat < a.length then Except.ok (a.set i.toNat v)
  else Except.error Err.outOfBounds

/-! ## The device program -/

/-- One work-item of the kernel `cube` (`KernelSource`):
`int i = get_global_id(0); if (i < count) output[i] = input[i] * input[i] * input[i];`
The comparison `i < count` is between `int` and `unsigned int`, hence unsigned. -/
def cube (input : List Int) (count : Nat) (gid : Nat) (output : List Int) :
    Except Err (List Int) :=
  let i : Int := toInt32 gid
  if toUInt32 i < count then
    match load input i with
    | Except.error e => Except.error e
    | Except.ok x => store output i (cube32 x)
  else Except.ok output

/-- A one-dimensional dispatch of `global` work-items with global ids
`0, 1, ..., global - 1`. The work-items of `cube` touch disjoint cells, so they
are run one after the other. -/
def dispatch (kernel : Nat → List Int → Except Err (List Int)) :
    Nat → List Int → Except Err (List Int)
  | 0, output => Except.ok output
  | g + 1, output =>
    match dispatch kernel g output with
    | Except.error e => Except.error e
    | Except.ok out => kernel g out

/-- The kernel `cube` run once per index `0 .. N - 1` with `count = N`. -/
def runCube (input output : List Int) (N : Nat) : Except Err (List Int) :=
  dispatch (cube input N) N output

/-! ## The host loops -/

/-- Body of the verification loop of `main` (source lines 195-200), run from the
index `i` with `fuel` iterations left:
`for (int i = 0; i < count; i++) { if (results[i] == data[i]*data[i]*data[i]) correct++; }`
`correct` is an `unsigned int`. -/
def verifyFrom (count : Nat) (data results : List Int) :
    Nat → Int → Nat → Except Err Nat
  | 0, i, correct =>
    if toUInt32 i < count then Except.error Err.outOfFuel else Except.ok correct
  | fuel + 1, i, correct =>
    if toUInt32 i < count then
      match load results i, load data i with
      | Except.ok r, Except.ok d =>
        verifyFrom count data results fuel (toInt32 (i + 1))
          (if r = cube32 d then (correct + 1) % 4294967296 else correct)
      | Except.error e, _ => Except.error e
      | _, Except.error e => Except.error e
    else Except.ok correct

/-- The verification loop of `main`: `correct = 0; for (int i = 0; ...)`. -/
def verifyLoop (count : Nat) (data results : List Int) : Except Err Nat :=
  verifyFrom count data results count 0 0

/-- Body of the fill loop of `main` (source lines 91-93), run from the index `i`
with `fuel` iterations left; `calls` is the number of calls made to `rand` so far:
`for (int i = 0; i < count; i++) { data[i] = rand() % 100; }`
The operator `%` of C truncates towards zero. -/
def fillFrom (rand : Nat → Int) (count : Nat) :
    Nat → Int → Nat → List Int → Except Err (List Int)
  | 0, i, _, data =>
    if toUInt32 i < count then Except.error Err.outOfFuel else Except.ok data
  | fuel + 1, i, calls, data =>
    if toUInt32 i < count then
      match store data i (Int.tmod (rand calls) 100) with
      | Except.error e => Except.error e
      | Except.ok data1 => fillFrom rand count fuel (toInt32 (i + 1)) (calls + 1) data1
    else Except.ok data

/-- The fill loop of `main`. -/
def fillLoop (rand : Nat → Int) (count : Nat) (data : List Int) : Except Err (List Int) :=
  fillFrom rand count count 0 0 data

/-! ## The host program -/

/-- The macro `DATA_SIZE` (source line 8). -/
def DATA_SIZE : Nat := 128

/-- The status `CL_SUCCESS` of `CL/cl.h`. -/
def CL_SUCCESS : Int := 0

/-- The exit status `EXIT_FAILURE` of `stdlib.h`. -/
def EXIT_FAILURE : Int := 1

/-- The size of an `int` in bytes. -/
def sizeof_int : Nat := 4

/-- Device classes that `clGetDeviceIDs` can be asked for. -/
inductive DeviceType
  | CL_DEVICE_TYPE_CPU
  | CL_DEVICE_TYPE_GPU
  deriving DecidableEq, Repr

/-- Device attributes queried by `print_device_info`. -/
inductive DeviceParam
  | CL_DEVICE_NAME
  | CL_DEVICE_VENDOR
  | CL_DEVICE_MAX_COMPUTE_UNITS
  | CL_DEVICE_MAX_WORK_ITEM_DIMENSIONS
  | CL_DEVICE_MAX_WORK_ITEM_SIZES
  | CL_DEVICE_MAX_WORK_GROUP_SIZE
  | CL_DEVICE_GLOBAL_MEM_SIZE
  | CL_DEVICE_LOCAL_MEM_SIZE
  deriving DecidableEq, Repr

/-- Build attributes that `clGetProgramBuildInfo` can be asked for. -/
inductive ProgramBuildParam
  | CL_PROGRAM_BUILD_STATUS
  | CL_PROGRAM_BUILD_LOG
  deriving DecidableEq, Repr

/-- Access modes of a device buffer. -/
inductive MemFlags
  | CL_MEM_READ_ONLY
  | CL_MEM_WRITE_ONLY
  deriving DecidableEq, Repr

/-- Value bound to a kernel argument slot: a buffer handle (passed with size
`sizeof(cl_mem)`) or an `unsigned int` (passed with size `sizeof(unsigned int)`). -/
inductive ArgValue
  | mem (handle : Nat)
  | uint (value : Nat)
  deriving DecidableEq, Repr

/-- A call issued to the OpenCL runtime, with the arguments that `main` passes and
the values the runtime hands back. Handles are numbers and `0` is `NULL`. The
status returned by `clGetDeviceInfo`, by `clGetProgramBuildInfo` and by the
release calls is never looked at by the program and is not recorded. -/
inductive Call
  | clGetDeviceIDs (device_type : DeviceType) (num_entries : Nat) (device : Nat) (err : Int)
  | clGetDeviceInfo (device : Nat) (param : DeviceParam)
  | clCreateContext (device : Nat) (ret : Nat) (errcode : Int)
  | clCreateCommandQueue (context device : Nat) (ret : Nat) (errcode : Int)
  | clCreateProgramWithSource (context : Nat) (ret : Nat) (errcode : Int)
  | clBuildProgram (program : Nat) (err : Int)
  | clGetProgramBuildInfo (program device : Nat) (param : ProgramBuildParam)
      (param_value_size : Nat)
  | clCreateKernel (program : Nat) (kernel_name : String) (ret : Nat) (errcode : Int)
  | clCreateBuffer (context : Nat) (flags : MemFlags) (size : Nat) (ret : Nat)
  | clEnqueueWriteBuffer (queue buffer : Nat) (blocking : Bool) (offset size : Nat)
      (host : List Int) (err : Int)
  | clSetKernelArg (kernel : Nat) (arg_index : Nat) (arg : ArgValue) (err : Int)
  | clGetKernelWorkGroupInfo (kernel device : Nat) (value : Nat) (err : Int)
  | clEnqueueNDRangeKernel (queue kernel : Nat) (work_dim : Nat) (global_work_size : Nat)
      (local_work_size : Option Nat) (err : Int)
  | clFinish (queue : Nat) (err : Int)
  | clEnqueueReadBuffer (queue buffer : Nat) (blocking : Bool) (offset size : Nat) (err : Int)
  | clReleaseMemObject (memobj : Nat)
  | clReleaseProgram (program : Nat)
  | clReleaseKernel (kernel : Nat)
  | clReleaseCommandQueue (queue : Nat)
  | clReleaseContext (context : Nat)
  deriving DecidableEq, Repr

/-- What a `clCreate...` call with an `errcode_ret` argument hands back. -/
structure Created where
  handle : Nat
  errcode : Int
  deriving DecidableEq, Repr

/-- Everything `main` receives from outside: the values of `rand()`, the
indeterminate initial contents of the two stack arrays, and the outcome of each
call site of the OpenCL API. `main` is straight-line code, so each call site is
reached at most once. -/
structure Outcomes where
  rand : Nat → Int
  stackData : Nat → Int
  stackResults : Nat → Int
  getDeviceIDs : Int
  device_id : Nat
  createContext : Created
  createCommandQueue : Created
  createProgramWithSource : Created
  buildProgram : Int
  createKernel : Created
  createBufferInput : Nat
  createBufferOutput : Nat
  enqueueWriteBuffer : Int
  setKernelArg0 : Int
  setKernelArg1 : Int
  setKernelArg2 : Int
  getKernelWorkGroupInfo : Int
  local_size : Nat
  enqueueNDRangeKernel : Int
  finish : Int
  enqueueReadBuffer : Int
  deviceOutput : Nat → Int

/-- A stack array of `n` cells with indeterminate contents. -/
def uninit (contents : Nat → Int) (n : Nat) : List Int := (List.range n).map contents

/-- Effect on the host array `dst` of a transfer of `n` cells from the device. -/
def readInto (dst : List Int) (n : Nat) (src : Nat → Int) : List Int :=
  (List.range n).map src ++ dst.drop n

/-- The calls made by `print_device_info` (source lines 25-68). -/
def print_device_info (device_id : Nat) : List Call :=
  [Call.clGetDeviceInfo device_id DeviceParam.CL_DEVICE_NAME,
   Call.clGetDeviceInfo device_id DeviceParam.CL_DEVICE_VENDOR,
   Call.clGetDeviceInfo device_id DeviceParam.CL_DEVICE_MAX_COMPUTE_UNITS,
   Call.clGetDeviceInfo device_id DeviceParam.CL_DEVICE_MAX_WORK_ITEM_DIMENSIONS,
   Call.clGetDeviceInfo device_id DeviceParam.CL_DEVICE_MAX_WORK_ITEM_SIZES,
   Call.clGetDeviceInfo device_id DeviceParam.CL_DEVICE_MAX_WORK_GROUP_SIZE,
   Call.clGetDeviceInfo device_id DeviceParam.CL_DEVICE_GLOBAL_MEM_SIZE,
   Call.clGetDeviceInfo device_id DeviceParam.CL_DEVICE_LOCAL_MEM_SIZE]

/-- The observable result of one run of `main`. -/
structure Run where
  trace : List Call
  status : Int
  data : List Int
  results : List Int
  correct : Option Nat
  deriving DecidableEq, Repr

/-- The function `main` (source lines 70-214). Both `return EXIT_FAILURE` and
`exit(1)` end the run with status `1`. The text written to the standard output is
not part of the model. -/
def main (o : Outcomes) : Except Err Run :=
  let results := uninit o.stackResults DATA_SIZE
  let count : Nat := DATA_SIZE
  match fillLoop o.rand count (uninit o.stackData DATA_SIZE) with
  | Except.error e => Except.error e
  | Except.ok data =>
  let device_id := o.device_id
  let t := [Call.clGetDeviceIDs DeviceType.CL_DEVICE_TYPE_GPU 1 device_id o.getDeviceIDs]
  if o.getDeviceIDs ≠ CL_SUCCESS then Except.ok ⟨t, EXIT_FAILURE, data, results, none⟩ else
  let t := t ++ print_device_info device_id
  let context := o.createContext.handle
  let t := t ++ [Call.clCreateContext device_id context o.createContext.errcode]
  if context = 0 then Except.ok ⟨t, EXIT_FAILURE, data, results, none⟩ else
  let commands := o.createCommandQueue.handle
  let t := t ++ [Call.clCreateCommandQueue context device_id commands
    o.createCommandQueue.errcode]
  if commands = 0 then Except.ok ⟨t, EXIT_FAILURE, data, results, none⟩ else
  let program := o.createProgramWithSource.handle
  let t := t ++ [Call.clCreateProgramWithSource context program
    o.createProgramWithSource.errcode]
  if program = 0 then Except.ok ⟨t, EXIT_FAILURE, data, results, none⟩ else
  let t := t ++ [Call.clBuildProgram program o.buildProgram]
  if o.buildProgram ≠ CL_SUCCESS then
    Except.ok ⟨t ++ [Call.clGetProgramBuildInfo program device_id
      ProgramBuildParam.CL_PROGRAM_BUILD_LOG 2048], 1, data, results, none⟩
  else
  let kernel := o.createKernel.handle
  let t := t ++ [Call.clCreateKernel program "cube" kernel o.createKernel.errcode]
  if kernel = 0 ∨ o.createKernel.errcode ≠ CL_SUCCESS then
    Except.ok ⟨t, 1, data, results, none⟩
  else
  let input := o.createBufferInput
  let output := o.createBufferOutput
  let t := t ++ [Call.clCreateBuffer context MemFlags.CL_MEM_READ_ONLY (sizeof_int * count) input,
    Call.clCreateBuffer context MemFlags.CL_MEM_WRITE_ONLY (sizeof_int * count) output]
  if input = 0 ∨ output = 0 then Except.ok ⟨t, 1, data, results, none⟩ else
  let t := t ++ [Call.clEnqueueWriteBuffer commands input true 0 (sizeof_int * count) data
    o.enqueueWriteBuffer]
  if o.enqueueWriteBuffer ≠ CL_SUCCESS then Except.ok ⟨t, 1, data, results, none⟩ else
  let err := o.setKernelArg0
  let err := Int.lor err o.setKernelArg1
  let err := Int.lor err o.setKernelArg2
  let t := t ++ [Call.clSetKernelArg kernel 0 (ArgValue.mem input) o.setKernelArg0,
    Call.clSetKernelArg kernel 1 (ArgValue.mem output) o.setKernelArg1,
    Call.clSetKernelArg kernel 2 (ArgValue.uint count) o.setKernelArg2]
  if err ≠ CL_SUCCESS then Except.ok ⟨t, 1, data, results, none⟩ else
  let t := t ++ [Call.clGetKernelWorkGroupInfo kernel device_id o.local_size
    o.getKernelWorkGroupInfo]
  if o.getKernelWorkGroupInfo ≠ CL_SUCCESS then Except.ok ⟨t, 1, data, results, none⟩ else
  let global := count
  let t := t ++ [Call.clEnqueueNDRangeKernel commands kernel 1 global none
    o.enqueueNDRangeKernel]
  if o.enqueueNDRangeKernel ≠ 0 then Except.ok ⟨t, EXIT_FAILURE, data, results, none⟩ else
  let t := t ++ [Call.clFinish commands o.finish]
  let t := t ++ [Call.clEnqueueReadBuffer commands output true 0 (sizeof_int * count)
    o.enqueueReadBuffer]
  if o.enqueueReadBuffer ≠ CL_SUCCESS then Except.ok ⟨t, 1, data, results, none⟩ else
  let results := readInto results count o.deviceOutput
  match verifyLoop count data results with
  | Except.error e => Except.error e
  | Except.ok correct =>
  let t := t ++ [Call.clReleaseMemObject input, Call.clReleaseMemObject output,
    Call.clReleaseProgram program, Call.clReleaseKernel kernel,
    Call.clReleaseCommandQueue commands, Call.clReleaseContext context]
  Except.ok ⟨t, 0, data, results, some correct⟩

/-! ## Vocabulary of the statements -/

/-- Cell `i` passes the check of the verification loop:
`results[i] == data[i] * data[i] * data[i]`. -/
def matchesAt (data results : List Int) (i : Nat) : Bool :=
  decide (results.getD i 0 = cube32 (data.getD i 0))

/-- The contents of `data` after the fill loop: cell `j` holds the `j`-th value
of `rand()` reduced by `% 100`. -/
def filled (rand : Nat → Int) : List Int :=
  (List.range DATA_SIZE).map (fun j => Int.tmod (rand j) 100)

/-- A resource of the OpenCL runtime, identified by its kind and its handle. -/
inductive Resource
  | context (handle : Nat)
  | queue (handle : Nat)
  | program (handle : Nat)
  | kernel (handle : Nat)
  | buffer (handle : Nat)
  deriving DecidableEq, Repr

/-- The resource a call brings into existence, when it hands back a handle other
than `NULL`. -/
def Call.creates : Call → Option Resource
  | Call.clCreateContext _ ret _ => if ret = 0 then none else some (Resource.context ret)
  | Call.clCreateCommandQueue _ _ ret _ => if ret = 0 then none else some (Resource.queue ret)
  | Call.clCreateProgramWithSource _ ret _ =>
    if ret = 0 then none else some (Resource.program ret)
  | Call.clCreateKernel _ _ ret _ => if ret = 0 then none else some (Resource.kernel ret)
  | Call.clCreateBuffer _ _ _ ret => if ret = 0 then none else some (Resource.buffer ret)
  | _ => none

/-- The resource a call releases. -/
def Call.releases : Call → Option Resource
  | Call.clReleaseMemObject h => some (Resource.buffer h)
  | Call.clReleaseProgram h => some (Resource.program h)
  | Call.clReleaseKernel h => some (Resource.kernel h)
  | Call.clReleaseCommandQueue h => some (Resource.queue h)
  | Call.clReleaseContext h => some (Resource.context h)
  | _ => none

/-- The resources created during a run, in creation order. -/
def created (t : List Call) : List Resource := t.filterMap Call.creates

/-- The resources released during a run, in release order. -/
def released (t : List Call) : List Resource := t.filterMap Call.releases

/-- The contract of the `clCreate...` calls that take an `errcode_ret`: the handle
is `NULL` exactly when the error code is not `CL_SUCCESS`. -/
def Created.conforms (c : Created) : Prop := c.handle = 0 ↔ c.errcode ≠ CL_SUCCESS

instance (c : Created) : Decidable c.conforms := by
  unfold Created.conforms; infer_instance

/-- Outcomes that an OpenCL runtime honouring the contract of its `clCreate...`
calls can deliver. -/
def Conforming (o : Outcomes) : Prop :=
  o.createContext.conforms ∧ o.createCommandQueue.conforms ∧
    o.createProgramWithSource.conforms ∧ o.createKernel.conforms

instance (o : Outcomes) : Decidable (Conforming o) := by
  unfold Conforming; infer_instance

/-- One of the ten stages named by the exit-status contract is given a failing
outcome: device lookup, context creation, queue creation, program creation,
program build, kernel creation, buffer allocation, upload, kernel execution,
download. -/
def ListedStageFails (o : Outcomes) : Prop :=
  o.getDeviceIDs ≠ CL_SUCCESS ∨ o.createContext.handle = 0 ∨
  o.createCommandQueue.handle = 0 ∨ o.createProgramWithSource.handle = 0 ∨
  o.buildProgram ≠ CL_SUCCESS ∨ o.createKernel.handle = 0 ∨
  (o.createBufferInput = 0 ∨ o.createBufferOutput = 0) ∨
  o.enqueueWriteBuffer ≠ CL_SUCCESS ∨ o.enqueueNDRangeKernel ≠ CL_SUCCESS ∨
  o.enqueueReadBuffer ≠ CL_SUCCESS

instance (o : Outcomes) : Decidable (ListedStageFails o) := by
  unfold ListedStageFails; infer_instance

/-- Binding of one of the three kernel argument slots is given a failing outcome. -/
def ArgBindingFails (o : Outcomes) : Prop :=
  o.setKernelArg0 ≠ CL_SUCCESS ∨ o.setKernelArg1 ≠ CL_SUCCESS ∨ o.setKernelArg2 ≠ CL_SUCCESS

instance (o : Outcomes) : Decidable (ArgBindingFails o) := by
  unfold ArgBindingFails; infer_instance

/-- The work-group size query is given a failing outcome. -/
def WorkGroupQueryFails (o : Outcomes) : Prop := o.getKernelWorkGroupInfo ≠ CL_SUCCESS

instance (o : Outcomes) : Decidable (WorkGroupQueryFails o) := by
  unfold WorkGroupQueryFails; infer_instance

/-- Some operation whose status `main` inspects is given a failing outcome. -/
def CheckedStageFails (o : Outcomes) : Prop :=
  ListedStageFails o ∨ ArgBindingFails o ∨ WorkGroupQueryFails o

instance (o : Outcomes) : Decidable (CheckedStageFails o) := by
  unfold CheckedStageFails; infer_instance

/-- Outcomes in which every call succeeds and the device returns the cubes. -/
def allSucceed : Outcomes where
  rand := fun k => 37 * k + 11
  stackData := fun _ => 0
  stackResults := fun _ => 0
  getDeviceIDs := 0
  device_id := 7
  createContext := ⟨1, 0⟩
  createCommandQueue := ⟨2, 0⟩
  createProgramWithSource := ⟨3, 0⟩
  buildProgram := 0
  createKernel := ⟨4, 0⟩
  createBufferInput := 5
  createBufferOutput := 6
  enqueueWriteBuffer := 0
  setKernelArg0 := 0
  setKernelArg1 := 0
  setKernelArg2 := 0
  getKernelWorkGroupInfo := 0
  local_size := 256
  enqueueNDRangeKernel := 0
  finish := 0
  enqueueReadBuffer := 0
  deviceOutput := fun i => cube32 (Int.tmod (37 * i + 11) 100)

/-! ## The calls issued up to each stage

`callsX o` is the list of calls that a run has issued when stage `X` has just
been attempted, and `pastX o` says that every inspected status up to and
including stage `X` was a success. They are used to describe, case by case, what
`main` returns. -/

/-- Calls issued once the device lookup has been attempted. -/
def callsLookup (o : Outcomes) : List Call :=
  [Call.clGetDeviceIDs DeviceType.CL_DEVICE_TYPE_GPU 1 o.device_id o.getDeviceIDs]

/-- Calls issued once the context creation has been attempted. -/
def callsContext (o : Outcomes) : List Call :=
  callsLookup o ++ print_device_info o.device_id ++
    [Call.clCreateContext o.device_id o.createContext.handle o.createContext.errcode]

/-- Calls issued once the queue creation has been attempted. -/
def callsQueue (o : Outcomes) : List Call :=
  callsContext o ++ [Call.clCreateCommandQueue o.createContext.handle o.device_id
    o.createCommandQueue.handle o.createCommandQueue.errcode]

/-- Calls issued once the program creation has been attempted. -/
def callsProgram (o : Outcomes) : List Call :=
  callsQueue o ++ [Call.clCreateProgramWithSource o.createContext.handle
    o.createProgramWithSource.handle o.createProgramWithSource.errcode]

/-- Calls issued once the program build has been attempted. -/
def callsBuild (o : Outcomes) : List Call :=
  callsProgram o ++ [Call.clBuildProgram o.createProgramWithSource.handle o.buildProgram]

/-- Calls issued once the kernel creation has been attempted. -/
def callsKernel (o : Outcomes) : List Call :=
  callsBuild o ++ [Call.clCreateKernel o.createProgramWithSource.handle "cube"
    o.createKernel.handle o.createKernel.errcode]

/-- Calls issued once the two buffer allocations have been attempted. -/
def callsBuffers (o : Outcomes) : List Call :=
  callsKernel o ++
    [Call.clCreateBuffer o.createContext.handle MemFlags.CL_MEM_READ_ONLY
      (sizeof_int * DATA_SIZE) o.createBufferInput,
     Call.clCreateBuffer o.createContext.handle MemFlags.CL_MEM_WRITE_ONLY
      (sizeof_int * DATA_SIZE) o.createBufferOutput]

/-- Calls issued once the upload has been attempted. -/
def callsUpload (o : Outcomes) : List Call :=
  callsBuffers o ++ [Call.clEnqueueWriteBuffer o.createCommandQueue.handle o.createBufferInput
    true 0 (sizeof_int * DATA_SIZE) (filled o.rand) o.enqueueWriteBuffer]

/-- Calls issued once the three argument bindings have been attempted. -/
def callsArgs (o : Outcomes) : List Call :=
  callsUpload o ++
    [Call.clSetKernelArg o.createKernel.handle 0 (ArgValue.mem o.createBufferInput)
      o.setKernelArg0,
     Call.clSetKernelArg o.createKernel.handle 1 (ArgValue.mem o.createBufferOutput)
      o.setKernelArg1,
     Call.clSetKernelArg o.createKernel.handle 2 (ArgValue.uint DATA_SIZE) o.setKernelArg2]

/-- Calls issued once the work-group size query has been attempted. -/
def callsQuery (o : Outcomes) : List Call :=
  callsArgs o ++ [Call.clGetKernelWorkGroupInfo o.createKernel.handle o.device_id
    o.local_size o.getKernelWorkGroupInfo]

/-- Calls issued once the dispatch has been attempted. -/
def callsDispatch (o : Outcomes) : List Call :=
  callsQuery o ++ [Call.clEnqueueNDRangeKernel o.createCommandQueue.handle
    o.createKernel.handle 1 DATA_SIZE none o.enqueueNDRangeKernel]

/-- Calls issued once the drain and the download have been attempted. -/
def callsDownload (o : Outcomes) : List Call :=
  callsDispatch o ++ [Call.clFinish o.createCommandQueue.handle o.finish] ++
    [Call.clEnqueueReadBuffer o.createCommandQueue.handle o.createBufferOutput true 0
      (sizeof_int * DATA_SIZE) o.enqueueReadBuffer]

/-- The release calls at the end of `main` (source lines 206-211). -/
def callsCleanup (o : Outcomes) : List Call :=
  [Call.clReleaseMemObject o.createBufferInput, Call.clReleaseMemObject o.createBufferOutput,
   Call.clReleaseProgram o.createProgramWithSource.handle,
   Call.clReleaseKernel o.createKernel.handle,
   Call.clReleaseCommandQueue o.createCommandQueue.handle,
   Call.clReleaseContext o.createContext.handle]

/-- The run gets past the device lookup. -/
def pastLookup (o : Outcomes) : Prop := o.getDeviceIDs = CL_SUCCESS

/-- The run gets past the context creation. -/
def pastContext (o : Outcomes) : Prop := pastLookup o ∧ o.createContext.handle ≠ 0

/-- The run gets past the queue creation. -/
def pastQueue (o : Outcomes) : Prop := pastContext o ∧ o.createCommandQueue.handle ≠ 0

/-- The run gets past the program creation. -/
def pastProgram (o : Outcomes) : Prop := pastQueue o ∧ o.createProgramWithSource.handle ≠ 0

/-- The run gets past the program build. -/
def pastBuild (o : Outcomes) : Prop := pastProgram o ∧ o.buildProgram = CL_SUCCESS

/-- The run gets past the kernel creation. -/
def pastKernel (o : Outcomes) : Prop :=
  pastBuild o ∧ o.createKernel.handle ≠ 0 ∧ o.createKernel.errcode = CL_SUCCESS

/-- The run gets past the buffer allocations. -/
def pastBuffers (o : Outcomes) : Prop :=
  pastKernel o ∧ o.createBufferInput ≠ 0 ∧ o.createBufferOutput ≠ 0

/-- The run gets past the upload. -/
def pastUpload (o : Outcomes) : Prop := pastBuffers o ∧ o.enqueueWriteBuffer = CL_SUCCESS

/-- The run gets past the argument bindings. -/
def pastArgs (o : Outcomes) : Prop :=
  pastUpload o ∧ o.setKernelArg0 = CL_SUCCESS ∧ o.setKernelArg1 = CL_SUCCESS ∧
    o.setKernelArg2 = CL_SUCCESS

/-- The run gets past the work-group size query. -/
def pastQuery (o : Outcomes) : Prop := pastArgs o ∧ o.getKernelWorkGroupInfo = CL_SUCCESS

/-- The run gets past the dispatch. -/
def pastDispatch (o : Outcomes) : Prop := pastQuery o ∧ o.enqueueNDRangeKernel = CL_SUCCESS

/-- The run gets past the download and reaches the verification loop. -/
def pastDownload (o : Outcomes) : Prop := pastDispatch o ∧ o.enqueueReadBuffer = CL_SUCCESS

/-- A run that stops early with status `1` after the calls `t`. -/
def abortedRun (o : Outcomes) (t : List Call) : Run :=
  ⟨t, 1, filled o.rand, uninit o.stackResults DATA_SIZE, none⟩

/-- The contents of `results` after the download. -/
def downloaded (o : Outcomes) : List Int :=
  readInto (uninit o.stackResults DATA_SIZE) DATA_SIZE o.deviceOutput

/-- The run in which every inspected status is a success. -/
def completedRun (o : Outcomes) : Run :=
  ⟨callsDownload o ++ callsCleanup o, 0, filled o.rand, downloaded o,
    some (List.countP (matchesAt (filled o.rand) (downloaded o)) (List.range DATA_SIZE))⟩

/-- Calls of the kernel-creation stage and of every later stage, the release
calls included. -/
def Call.afterBuild : Call → Bool
  | Call.clCreateKernel _ _ _ _ => true
  | Call.clCreateBuffer _ _ _ _ => true
  | Call.clEnqueueWriteBuffer _ _ _ _ _ _ _ => true
  | Call.clSetKernelArg _ _ _ _ => true
  | Call.clGetKernelWorkGroupInfo _ _ _ _ => true
  | Call.clEnqueueNDRangeKernel _ _ _ _ _ _ => true
  | Call.clFinish _ _ => true
  | Call.clEnqueueReadBuffer _ _ _ _ _ _ => true
  | Call.clReleaseMemObject _ => true
  | Call.clReleaseProgram _ => true
  | Call.clReleaseKernel _ => true
  | Call.clReleaseCommandQueue _ => true
  | Call.clReleaseContext _ => true
  | _ => false

/-- Operations on the command queue, and bindings of kernel argument slots. -/
def Call.isQueueOrBinding : Call → Bool
  | Call.clEnqueueWriteBuffer _ _ _ _ _ _ _ => true
  | Call.clSetKernelArg _ _ _ _ => true
  | Call.clEnqueueNDRangeKernel _ _ _ _ _ _ => true
  | Call.clFinish _ _ => true
  | Call.clEnqueueReadBuffer _ _ _ _ _ _ => true
  | _ => false

/-- Kernel dispatches. -/
def Call.isDispatch : Call → Bool
  | Call.clEnqueueNDRangeKernel _ _ _ _ _ _ => true
  | _ => false

/-- Outcomes in which the queue creation fails after the context was created. -/
def queueCreationFails : Outcomes := { allSucceed with createCommandQueue := ⟨0, -6⟩ }

/-- Outcomes in which the program build fails. -/
def buildFails : Outcomes := { allSucceed with buildProgram := -11 }

/-- Outcomes in which only the drain of the queue fails. -/
def drainFails : Outcomes := { allSucceed with finish := -5 }

/-! ## The stages of the pipeline -/

/-- The stages of `main` that end with an inspection of a status. The download
stage comprises the drain `clFinish`, whose status is not inspected, and the
download `clEnqueueReadBuffer`. -/
inductive Stage
  | lookup
  | context
  | queue
  | program
  | build
  | kernel
  | buffers
  | upload
  | args
  | query
  | dispatch
  | download
  deriving DecidableEq, Repr

/-- Position of a stage in the pipeline. -/
def Stage.index : Stage → Nat
  | Stage.lookup => 0
  | Stage.context => 1
  | Stage.queue => 2
  | Stage.program => 3
  | Stage.build => 4
  | Stage.kernel => 5
  | Stage.buffers => 6
  | Stage.upload => 7
  | Stage.args => 8
  | Stage.query => 9
  | Stage.dispatch => 10
  | Stage.download => 11

/-- The stage is given a failing outcome: a status other than `CL_SUCCESS`, or a
`NULL` handle. -/
def Stage.fails (s : Stage) (o : Outcomes) : Prop :=
  match s with
  | Stage.lookup => o.getDeviceIDs ≠ CL_SUCCESS
  | Stage.context => o.createContext.handle = 0
  | Stage.queue => o.createCommandQueue.handle = 0
  | Stage.program => o.createProgramWithSource.handle = 0
  | Stage.build => o.buildProgram ≠ CL_SUCCESS
  | Stage.kernel => o.createKernel.handle = 0 ∨ o.createKernel.errcode ≠ CL_SUCCESS
  | Stage.buffers => o.createBufferInput = 0 ∨ o.createBufferOutput = 0
  | Stage.upload => o.enqueueWriteBuffer ≠ CL_SUCCESS
  | Stage.args =>
    o.setKernelArg0 ≠ CL_SUCCESS ∨ o.setKernelArg1 ≠ CL_SUCCESS ∨ o.setKernelArg2 ≠ CL_SUCCESS
  | Stage.query => o.getKernelWorkGroupInfo ≠ CL_SUCCESS
  | Stage.dispatch => o.enqueueNDRangeKernel ≠ CL_SUCCESS
  | Stage.download => o.enqueueReadBuffer ≠ CL_SUCCESS

instance (s : Stage) (o : Outcomes) : Decidable (s.fails o) := by
  cases s <;> (simp only [Stage.fails]; infer_instance)

/-- The calls of the pipeline from its start to the end of the given stage; the
build stage ends with the fetch of the build log. -/
def Stage.calls (s : Stage) (o : Outcomes) : List Call :=
  match s with
  | Stage.lookup => callsLookup o
  | Stage.context => callsContext o
  | Stage.queue => callsQueue o
  | Stage.program => callsProgram o
  | Stage.build => callsBuild o ++
      [Call.clGetProgramBuildInfo o.createProgramWithSource.handle o.device_id
        ProgramBuildParam.CL_PROGRAM_BUILD_LOG 2048]
  | Stage.kernel => callsKernel o
  | Stage.buffers => callsBuffers o
  | Stage.upload => callsUpload o
  | Stage.args => callsArgs o
  | Stage.query => callsQuery o
  | Stage.dispatch => callsDispatch o
  | Stage.download => callsDownload o

/-- Position in the pipeline of the stage a call belongs to. The calls of
`print_device_info` come with the context creation, the fetch of the build log
with the build, the drain with the download, and the release calls after every
stage. -/
def Call.stageIndex : Call → Nat
  | Call.clGetDeviceIDs _ _ _ _ => 0
  | Call.clGetDeviceInfo _ _ => 1
  | Call.clCreateContext _ _ _ => 1
  | Call.clCreateCommandQueue _ _ _ _ => 2
  | Call.clCreateProgramWithSource _ _ _ => 3
  | Call.clBuildProgram _ _ => 4
  | Call.clGetProgramBuildInfo _ _ _ _ => 4
  | Call.clCreateKernel _ _ _ _ => 5
  | Call.clCreateBuffer _ _ _ _ => 6
  | Call.clEnqueueWriteBuffer _ _ _ _ _ _ _ => 7
  | Call.clSetKernelArg _ _ _ _ => 8
  | Call.clGetKernelWorkGroupInfo _ _ _ _ => 9
  | Call.clEnqueueNDRangeKernel _ _ _ _ _ _ => 10
  | Call.clFinish _ _ => 11
  | Call.clEnqueueReadBuffer _ _ _ _ _ _ => 11
  | Call.clReleaseMemObject _ => 12
  | Call.clReleaseProgram _ => 12
  | Call.clReleaseKernel _ => 12
  | Call.clReleaseCommandQueue _ => 12
  | Call.clReleaseContext _ => 12

/-! ## Machine arithmetic, arrays and loops -/

theorem toInt32_of_lt (x : Int) (h0 : 0 ≤ x) (h1 : x < 2147483648) : toInt32 x = x := by
  unfold toInt32; omega

theorem toUInt32_natCast (k : Nat) (h : k < 4294967296) : toUInt32 (k : Int) = k := by
  unfold toUInt32; omega

theorem load_natCast (a : List Int) (k : Nat) (h : k < a.length) :
    load a (k : Int) = Except.ok (a.getD k 0) := by
  simp [load, h]

theorem store_natCast (a : List Int) (k : Nat) (v : Int) (h : k < a.length) :
    store a (k : Int) v = Except.ok (a.set k v) := by
  simp [store, h]

theorem cube32_eq_pow (x : Int) (h0 : 0 ≤ x) (h1 : x < 100) : cube32 x = x ^ 3 := by
  have h2 : x * x ≤ 99 * 99 := by nlinarith
  have h3 : 0 ≤ x * x := by nlinarith
  have h4 : x * x * x ≤ 99 * 99 * 99 := by nlinarith
  have h5 : 0 ≤ x * x * x := by nlinarith
  unfold cube32 mul32
  rw [toInt32_of_lt (x * x) h3 (by omega), toInt32_of_lt (x * x * x) h5 (by omega)]
  ring

/-- The verification loop started at index `k` with `n` cells left adds to
`correct` the number of matching cells among `k, ..., k + n - 1`. -/
theorem verifyFrom_eq (count : Nat) (data results : List Int)
    (hcount : count < 2147483648) (hd : data.length = count) (hr : results.length = count) :
    ∀ (n k fuel c : Nat), k + n = count → n ≤ fuel → c + n < 4294967296 →
      verifyFrom count data results fuel (k : Int) c =
        Except.ok (c + List.countP (matchesAt data results) (List.range' k n)) := by
  intro n
  induction n with
  | zero =>
    intro k fuel c hk _ _
    have hu : toUInt32 (k : Int) = k := toUInt32_natCast k (by omega)
    cases fuel <;> simp [verifyFrom, hu] <;> omega
  | succ n ih =>
    intro k fuel c hk hf hc
    have hu : toUInt32 (k : Int) = k := toUInt32_natCast k (by omega)
    obtain ⟨f, rfl⟩ : ∃ f, fuel = f + 1 := ⟨fuel - 1, by omega⟩
    have hlt : k < count := by omega
    have hi : toInt32 ((k : Int) + 1) = ((k + 1 : Nat) : Int) := by
      rw [toInt32_of_lt _ (by omega) (by omega)]; push_cast; rfl
    rw [verifyFrom, hu, if_pos hlt, load_natCast results k (by omega),
      load_natCast data k (by omega)]
    simp only [hi]
    rw [ih (k + 1) f _ (by omega) (by omega) (by split <;> omega)]
    rw [List.range'_succ, List.countP_cons]
    by_cases hm : results.getD k 0 = cube32 (data.getD k 0)
    · have hmod : (c + 1) % 4294967296 = c + 1 := Nat.mod_eq_of_lt (by omega)
      have hb : matchesAt data results k = true := decide_eq_true hm
      rw [if_pos hm, hmod, if_pos hb]; exact congrArg Except.ok (by omega)
    · have hb : ¬ matchesAt data results k = true := by
        simpa [matchesAt] using hm
      rw [if_neg hm, if_neg hb]; rfl

theorem take_succ_set (a : List Int) (k : Nat) (v : Int) (h : k < a.length) :
    (a.set k v).take (k + 1) = a.take k ++ [v] := by
  rw [List.set_eq_take_append_cons_drop, if_pos h, List.take_append_eq_append_take]
  simp [List.length_take, Nat.min_eq_left (Nat.le_of_lt h)]

/-- The fill loop started at index `k` with `n` cells left keeps the first `k`
cells and writes `rand() % 100` into the others, in call order. -/
theorem fillFrom_eq (rand : Nat → Int) (count : Nat) (hcount : count < 2147483648) :
    ∀ (n k fuel : Nat) (data : List Int), k + n = count → n ≤ fuel → data.length = count →
      fillFrom rand count fuel (k : Int) k data =
        Except.ok (data.take k ++ (List.range' k n).map (fun j => Int.tmod (rand j) 100)) := by
  intro n
  induction n with
  | zero =>
    intro k fuel data hk _ hd
    have hu : toUInt32 (k : Int) = k := toUInt32_natCast k (by omega)
    have ht : data.take k = data := List.take_of_length_le (by omega)
    cases fuel <;> simp [fillFrom, hu, ht] <;> omega
  | succ n ih =>
    intro k fuel data hk hf hd
    have hu : toUInt32 (k : Int) = k := toUInt32_natCast k (by omega)
    obtain ⟨f, rfl⟩ : ∃ f, fuel = f + 1 := ⟨fuel - 1, by omega⟩
    have hlt : k < count := by omega
    have hi : toInt32 ((k : Int) + 1) = ((k + 1 : Nat) : Int) := by
      rw [toInt32_of_lt _ (by omega) (by omega)]; push_cast; rfl
    rw [fillFrom, hu, if_pos hlt, store_natCast data k _ (by omega)]
    simp only [hi]
    rw [ih (k + 1) f _ (by omega) (by omega) (by simpa using hd),
      take_succ_set data k _ (by omega), List.range'_succ]
    simp

/-- After work-items `0 .. g - 1` of `cube` the first `g` cells of the output hold
the wrapped cubes and the other cells are untouched, as long as every global id
run so far fits an `int`. -/
theorem dispatch_cube_eq (input out0 : List Int) (N : Nat)
    (hin : input.length = N) (hout : out0.length = N) :
    ∀ g : Nat, g ≤ N → g ≤ 2147483648 →
      dispatch (cube input N) g out0 =
        Except.ok ((input.take g).map cube32 ++ out0.drop g) := by
  intro g
  induction g with
  | zero => intro _ _; simp [dispatch]
  | succ g ih =>
    intro hg hg2
    have hi : toInt32 ((g : Nat) : Int) = (g : Int) := toInt32_of_lt _ (by omega) (by omega)
    have hu : toUInt32 (g : Int) = g := toUInt32_natCast g (by omega)
    rw [dispatch, ih (by omega) (by omega)]
    simp only [cube, hi, hu]
    rw [if_pos (by omega), load_natCast input g (by omega)]
    simp only []
    rw [store_natCast _ g _ (by simp [hin, hout]; omega)]
    refine congrArg Except.ok ?_
    have h1 : out0.drop g = out0.getD g 0 :: out0.drop (g + 1) := by
      rw [List.getD_eq_getElem _ _ (by omega)]
      exact List.drop_eq_getElem_cons (by omega)
    have h2 : input.take (g + 1) = input.take g ++ [input.getD g 0] := by
      rw [List.take_succ, List.getElem?_eq_getElem (show g < input.length by omega),
        List.getD_eq_getElem _ _ (by omega)]
      rfl
    have h3 : (List.map cube32 (input.take g)).length = g := by
      simp [hin]; omega
    rw [h1, h2, List.set_append_right _ _ (by omega), h3, Nat.sub_self, List.set_cons_zero,
      List.map_append, List.append_assoc]
    rfl

/-- The work-item with global id `2^31` of a dispatch with `count = 2^31 + 1` reads
`input[-2^31]`. -/
theorem cube_faults_at_int_min (input output : List Int) :
    cube input 2147483649 2147483648 output = Except.error Err.outOfBounds := by
  simp [cube, toInt32, toUInt32, load]

theorem nat_or_eq_zero (a b : Nat) : a ||| b = 0 ↔ a = 0 ∧ b = 0 := by
  constructor
  · intro h
    have hbit : ∀ i, a.testBit i = false ∧ b.testBit i = false := by
      intro i
      have hi : (a ||| b).testBit i = false := by rw [h]; exact Nat.zero_testBit i
      rw [Nat.testBit_or] at hi
      exact Bool.or_eq_false_iff.mp hi
    constructor
    · exact Nat.eq_of_testBit_eq (fun i => by rw [(hbit i).1, Nat.zero_testBit])
    · exact Nat.eq_of_testBit_eq (fun i => by rw [(hbit i).2, Nat.zero_testBit])
  · rintro ⟨rfl, rfl⟩
    rfl

/-- The accumulation `err |= ...` is zero exactly when both operands are. -/
theorem int_lor_eq_zero (a b : Int) : Int.lor a b = 0 ↔ a = 0 ∧ b = 0 := by
  cases a <;> cases b <;> simp [Int.lor]
  exact nat_or_eq_zero _ _

theorem fillLoop_main (rand g : Nat → Int) :
    fillLoop rand DATA_SIZE (uninit g DATA_SIZE) = Except.ok (filled rand) := by
  have h := fillFrom_eq rand DATA_SIZE (by decide) DATA_SIZE 0 DATA_SIZE (uninit g DATA_SIZE)
    (by simp) (le_refl _) (by simp [uninit])
  simpa [fillLoop, filled, List.range_eq_range'] using h

theorem filled_length (rand : Nat → Int) : (filled rand).length = DATA_SIZE := by
  simp [filled]

theorem readInto_length (dst : List Int) (n : Nat) (src : Nat → Int) (h : dst.length = n) :
    (readInto dst n src).length = n := by
  simp [readInto, h]

theorem verifyLoop_eq (count : Nat) (data results : List Int)
    (hcount : count < 2147483648) (hd : data.length = count) (hr : results.length = count) :
    verifyLoop count data results =
      Except.ok (List.countP (matchesAt data results) (List.range count)) := by
  have h := verifyFrom_eq count data results hcount hd hr count 0 count 0 (by simp)
    (le_refl _) (by omega)
  simpa [verifyLoop, List.range_eq_range'] using h

/-! ## What `main` returns -/

theorem verifyLoop_main (o : Outcomes) :
    verifyLoop DATA_SIZE (filled o.rand)
        (readInto (uninit o.stackResults DATA_SIZE) DATA_SIZE o.deviceOutput) =
      Except.ok (List.countP (matchesAt (filled o.rand) (downloaded o))
        (List.range DATA_SIZE)) :=
  verifyLoop_eq DATA_SIZE (filled o.rand)
    (readInto (uninit o.stackResults DATA_SIZE) DATA_SIZE o.deviceOutput) (by decide)
    (filled_length _) (readInto_length _ _ _ (by simp [uninit]))

/-- What `main` returns, by the first inspected status that is a failure. -/
theorem main_cases (o : Outcomes) :
    (¬ pastLookup o ∧ main o = Except.ok (abortedRun o (callsLookup o))) ∨
    (pastLookup o ∧ ¬ pastContext o ∧ main o = Except.ok (abortedRun o (callsContext o))) ∨
    (pastContext o ∧ ¬ pastQueue o ∧ main o = Except.ok (abortedRun o (callsQueue o))) ∨
    (pastQueue o ∧ ¬ pastProgram o ∧ main o = Except.ok (abortedRun o (callsProgram o))) ∨
    (pastProgram o ∧ ¬ pastBuild o ∧ main o = Except.ok (abortedRun o (callsBuild o ++
      [Call.clGetProgramBuildInfo o.createProgramWithSource.handle o.device_id
        ProgramBuildParam.CL_PROGRAM_BUILD_LOG 2048]))) ∨
    (pastBuild o ∧ ¬ pastKernel o ∧ main o = Except.ok (abortedRun o (callsKernel o))) ∨
    (pastKernel o ∧ ¬ pastBuffers o ∧ main o = Except.ok (abortedRun o (callsBuffers o))) ∨
    (pastBuffers o ∧ ¬ pastUpload o ∧ main o = Except.ok (abortedRun o (callsUpload o))) ∨
    (pastUpload o ∧ ¬ pastArgs o ∧ main o = Except.ok (abortedRun o (callsArgs o))) ∨
    (pastArgs o ∧ ¬ pastQuery o ∧ main o = Except.ok (abortedRun o (callsQuery o))) ∨
    (pastQuery o ∧ ¬ pastDispatch o ∧ main o = Except.ok (abortedRun o (callsDispatch o))) ∨
    (pastDispatch o ∧ ¬ pastDownload o ∧
      main o = Except.ok (abortedRun o (callsDownload o))) ∨
    (pastDownload o ∧ main o = Except.ok (completedRun o)) := by
  unfold main
  dsimp only
  rw [fillLoop_main]
  dsimp only
  rw [verifyLoop_main]
  dsimp only
  by_cases h1 : o.getDeviceIDs = CL_SUCCESS
  swap
  · rw [if_pos h1]; exact Or.inl ⟨h1, rfl⟩
  rw [if_neg (not_not.mpr h1)]
  right
  have p1 : pastLookup o := h1
  by_cases h2 : o.createContext.handle = 0
  · rw [if_pos h2]; exact Or.inl ⟨p1, fun h => h.2 h2, rfl⟩
  rw [if_neg h2]
  right
  have p2 : pastContext o := ⟨p1, h2⟩
  by_cases h3 : o.createCommandQueue.handle = 0
  · rw [if_pos h3]; exact Or.inl ⟨p2, fun h => h.2 h3, rfl⟩
  rw [if_neg h3]
  right
  have p3 : pastQueue o := ⟨p2, h3⟩
  by_cases h4 : o.createProgramWithSource.handle = 0
  · rw [if_pos h4]; exact Or.inl ⟨p3, fun h => h.2 h4, rfl⟩
  rw [if_neg h4]
  right
  have p4 : pastProgram o := ⟨p3, h4⟩
  by_cases h5 : o.buildProgram = CL_SUCCESS
  swap
  · rw [if_pos h5]; exact Or.inl ⟨p4, fun h => h5 h.2, rfl⟩
  rw [if_neg (not_not.mpr h5)]
  right
  have p5 : pastBuild o := ⟨p4, h5⟩
  by_cases h6 : o.createKernel.handle = 0 ∨ o.createKernel.errcode ≠ CL_SUCCESS
  · rw [if_pos h6]
    exact Or.inl ⟨p5, fun h => h6.elim (fun a => h.2.1 a) (fun a => a h.2.2), rfl⟩
  rw [if_neg h6]
  right
  have p6 : pastKernel o := ⟨p5, fun a => h6 (Or.inl a), not_not.mp (fun a => h6 (Or.inr a))⟩
  by_cases h7 : o.createBufferInput = 0 ∨ o.createBufferOutput = 0
  · rw [if_pos h7]
    exact Or.inl ⟨p6, fun h => h7.elim (fun a => h.2.1 a) (fun a => h.2.2 a), rfl⟩
  rw [if_neg h7]
  right
  have p7 : pastBuffers o := ⟨p6, fun a => h7 (Or.inl a), fun a => h7 (Or.inr a)⟩
  by_cases h8 : o.enqueueWriteBuffer = CL_SUCCESS
  swap
  · rw [if_pos h8]; exact Or.inl ⟨p7, fun h => h8 h.2, rfl⟩
  rw [if_neg (not_not.mpr h8)]
  right
  have p8 : pastUpload o := ⟨p7, h8⟩
  by_cases h9 : Int.lor (Int.lor o.setKernelArg0 o.setKernelArg1) o.setKernelArg2 = CL_SUCCESS
  swap
  · rw [if_pos h9]
    refine Or.inl ⟨p8, fun h => h9 ?_, rfl⟩
    rw [h.2.1, h.2.2.1, h.2.2.2]
    rfl
  rw [if_neg (not_not.mpr h9)]
  right
  have p9 : pastArgs o := by
    have h := (int_lor_eq_zero _ _).mp h9
    have h' := (int_lor_eq_zero _ _).mp h.1
    exact ⟨p8, h'.1, h'.2, h.2⟩
  by_cases h10 : o.getKernelWorkGroupInfo = CL_SUCCESS
  swap
  · rw [if_pos h10]; exact Or.inl ⟨p9, fun h => h10 h.2, rfl⟩
  rw [if_neg (not_not.mpr h10)]
  right
  have p10 : pastQuery o := ⟨p9, h10⟩
  by_cases h11 : o.enqueueNDRangeKernel = 0
  swap
  · rw [if_pos h11]; exact Or.inl ⟨p10, fun h => h11 h.2, rfl⟩
  rw [if_neg (not_not.mpr h11)]
  right
  have p11 : pastDispatch o := ⟨p10, h11⟩
  by_cases h12 : o.enqueueReadBuffer = CL_SUCCESS
  swap
  · rw [if_pos h12]; exact Or.inl ⟨p11, fun h => h12 h.2, rfl⟩
  rw [if_neg (not_not.mpr h12)]
  right
  exact ⟨⟨p11, h12⟩, rfl⟩

theorem pastDownload_of_not_fails (o : Outcomes) (hc : Conforming o)
    (h : ¬ CheckedStageFails o) : pastDownload o := by
  have hk := hc.2.2.2
  simp only [Created.conforms] at hk
  simp only [CheckedStageFails, ListedStageFails, ArgBindingFails, WorkGroupQueryFails,
    not_or, not_not] at h
  simp only [pastDownload, pastDispatch, pastQuery, pastArgs, pastUpload, pastBuffers,
    pastKernel, pastBuild, pastProgram, pastQueue, pastContext, pastLookup]
  have hke : o.createKernel.errcode = CL_SUCCESS := by
    by_contra hne
    exact h.1.2.2.2.2.2.1 (hk.mpr hne)
  tauto

theorem not_pastDownload_of_fails (o : Outcomes) (h : CheckedStageFails o) :
    ¬ pastDownload o := by
  simp only [CheckedStageFails, ListedStageFails, ArgBindingFails, WorkGroupQueryFails] at h
  simp only [pastDownload, pastDispatch, pastQuery, pastArgs, pastUpload, pastBuffers,
    pastKernel, pastBuild, pastProgram, pastQueue, pastContext, pastLookup]
  tauto

/-- A run that passes every inspected status is the completed run. -/
theorem main_completed (o : Outcomes) (h : pastDownload o) :
    main o = Except.ok (completedRun o) := by
  have h11 : pastDispatch o := h.1
  have h10 : pastQuery o := h11.1
  have h9 : pastArgs o := h10.1
  have h8 : pastUpload o := h9.1
  have h7 : pastBuffers o := h8.1
  have h6 : pastKernel o := h7.1
  have h5 : pastBuild o := h6.1
  have h4 : pastProgram o := h5.1
  have h3 : pastQueue o := h4.1
  have h2 : pastContext o := h3.1
  have h1 : pastLookup o := h2.1
  rcases main_cases o with c | c | c | c | c | c | c | c | c | c | c | c | c
  · exact absurd h1 c.1
  · exact absurd h2 c.2.1
  · exact absurd h3 c.2.1
  · exact absurd h4 c.2.1
  · exact absurd h5 c.2.1
  · exact absurd h6 c.2.1
  · exact absurd h7 c.2.1
  · exact absurd h8 c.2.1
  · exact absurd h9 c.2.1
  · exact absurd h10 c.2.1
  · exact absurd h11 c.2.1
  · exact absurd h c.2.1
  · exact c.2

/-- A run that meets a failing inspected status stops with status `1` after one of
twelve call sequences, none of which contains a release call. -/
theorem main_aborted (o : Outcomes) (h : ¬ pastDownload o) :
    ∃ t, main o = Except.ok (abortedRun o t) ∧ released t = [] := by
  rcases main_cases o with c | c | c | c | c | c | c | c | c | c | c | c | c
  · exact ⟨_, c.2, rfl⟩
  · exact ⟨_, c.2.2, rfl⟩
  · exact ⟨_, c.2.2, rfl⟩
  · exact ⟨_, c.2.2, rfl⟩
  · exact ⟨_, c.2.2, rfl⟩
  · exact ⟨_, c.2.2, rfl⟩
  · exact ⟨_, c.2.2, rfl⟩
  · exact ⟨_, c.2.2, rfl⟩
  · exact ⟨_, c.2.2, rfl⟩
  · exact ⟨_, c.2.2, rfl⟩
  · exact ⟨_, c.2.2, rfl⟩
  · exact ⟨_, c.2.2, rfl⟩
  · exact absurd c.1 h

/-- A run that gets past the context creation and not past the queue creation
stops right after the queue creation call. -/
theorem main_stops_at_queue (o : Outcomes) (hp : pastContext o) (hq : ¬ pastQueue o) :
    main o = Except.ok (abortedRun o (callsQueue o)) := by
  rcases main_cases o with c | c | c | c | c | c | c | c | c | c | c | c | c
  · exact absurd hp.1 c.1
  · exact absurd hp c.2.1
  · exact c.2.2
  · exact absurd c.1 hq
  · exact absurd c.1.1 hq
  · exact absurd c.1.1.1 hq
  · exact absurd c.1.1.1.1 hq
  · exact absurd c.1.1.1.1.1 hq
  · exact absurd c.1.1.1.1.1.1 hq
  · exact absurd c.1.1.1.1.1.1.1 hq
  · exact absurd c.1.1.1.1.1.1.1.1 hq
  · exact absurd c.1.1.1.1.1.1.1.1.1 hq
  · exact absurd c.1.1.1.1.1.1.1.1.1.1 hq

/-- A run that does not get past the device lookup stops right after it. -/
theorem main_stops_at_lookup (o : Outcomes) (hq : ¬ pastLookup o) :
    main o = Except.ok (abortedRun o (callsLookup o)) := by
  rcases main_cases o with c | c | c | c | c | c | c | c | c | c | c | c | c
  · exact c.2
  · exact absurd c.1 hq
  · exact absurd c.1.1 hq
  · exact absurd c.1.1.1 hq
  · exact absurd c.1.1.1.1 hq
  · exact absurd c.1.1.1.1.1 hq
  · exact absurd c.1.1.1.1.1.1 hq
  · exact absurd c.1.1.1.1.1.1.1 hq
  · exact absurd c.1.1.1.1.1.1.1.1 hq
  · exact absurd c.1.1.1.1.1.1.1.1.1 hq
  · exact absurd c.1.1.1.1.1.1.1.1.1.1 hq
  · exact absurd c.1.1.1.1.1.1.1.1.1.1.1 hq
  · exact absurd c.1.1.1.1.1.1.1.1.1.1.1.1 hq

/-- A run that gets past the device lookup and not past the context creation stops right
after the latter. -/
theorem main_stops_at_context (o : Outcomes) (hp : pastLookup o) (hq : ¬ pastContext o) :
    main o = Except.ok (abortedRun o (callsContext o)) := by
  rcases main_cases o with c | c | c | c | c | c | c | c | c | c | c | c | c
  · exact absurd hp c.1
  · exact c.2.2
  · exact absurd c.1 hq
  · exact absurd c.1.1 hq
  · exact absurd c.1.1.1 hq
  · exact absurd c.1.1.1.1 hq
  · exact absurd c.1.1.1.1.1 hq
  · exact absurd c.1.1.1.1.1.1 hq
  · exact absurd c.1.1.1.1.1.1.1 hq
  · exact absurd c.1.1.1.1.1.1.1.1 hq
  · exact absurd c.1.1.1.1.1.1.1.1.1 hq
  · exact absurd c.1.1.1.1.1.1.1.1.1.1 hq
  · exact absurd c.1.1.1.1.1.1.1.1.1.1.1 hq

/-- A run that gets past the queue creation and not past the program creation stops right
after the latter. -/
theorem main_stops_at_program (o : Outcomes) (hp : pastQueue o) (hq : ¬ pastProgram o) :
    main o = Except.ok (abortedRun o (callsProgram o)) := by
  rcases main_cases o with c | c | c | c | c | c | c | c | c | c | c | c | c
  · exact absurd hp.1.1 c.1
  · exact absurd hp.1 c.2.1
  · exact absurd hp c.2.1
  · exact c.2.2
  · exact absurd c.1 hq
  · exact absurd c.1.1 hq
  · exact absurd c.1.1.1 hq
  · exact absurd c.1.1.1.1 hq
  · exact absurd c.1.1.1.1.1 hq
  · exact absurd c.1.1.1.1.1.1 hq
  · exact absurd c.1.1.1.1.1.1.1 hq
  · exact absurd c.1.1.1.1.1.1.1.1 hq
  · exact absurd c.1.1.1.1.1.1.1.1.1 hq

/-- A run that gets past the program creation and not past the program build stops right
after the latter. -/
theorem main_stops_at_build (o : Outcomes) (hp : pastProgram o) (hq : ¬ pastBuild o) :
    main o = Except.ok (abortedRun o (callsBuild o ++
      [Call.clGetProgramBuildInfo o.createProgramWithSource.handle o.device_id
        ProgramBuildParam.CL_PROGRAM_BUILD_LOG 2048])) := by
  rcases main_cases o with c | c | c | c | c | c | c | c | c | c | c | c | c
  · exact absurd hp.1.1.1 c.1
  · exact absurd hp.1.1 c.2.1
  · exact absurd hp.1 c.2.1
  · exact absurd hp c.2.1
  · exact c.2.2
  · exact absurd c.1 hq
  · exact absurd c.1.1 hq
  · exact absurd c.1.1.1 hq
  · exact absurd c.1.1.1.1 hq
  · exact absurd c.1.1.1.1.1 hq
  · exact absurd c.1.1.1.1.1.1 hq
  · exact absurd c.1.1.1.1.1.1.1 hq
  · exact absurd c.1.1.1.1.1.1.1.1 hq

/-- A run that gets past the program build and not past the kernel creation stops right
after the latter. -/
theorem main_stops_at_kernel (o : Outcomes) (hp : pastBuild o) (hq : ¬ pastKernel o) :
    main o = Except.ok (abortedRun o (callsKernel o)) := by
  rcases main_cases o with c | c | c | c | c | c | c | c | c | c | c | c | c
  · exact absurd hp.1.1.1.1 c.1
  · exact absurd hp.1.1.1 c.2.1
  · exact absurd hp.1.1 c.2.1
  · exact absurd hp.1 c.2.1
  · exact absurd hp c.2.1
  · exact c.2.2
  · exact absurd c.1 hq
  · exact absurd c.1.1 hq
  · exact absurd c.1.1.1 hq
  · exact absurd c.1.1.1.1 hq
  · exact absurd c.1.1.1.1.1 hq
  · exact absurd c.1.1.1.1.1.1 hq
  · exact absurd c.1.1.1.1.1.1.1 hq

/-- A run that gets past the kernel creation and not past the buffer allocations stops right
after the latter. -/
theorem main_stops_at_buffers (o : Outcomes) (hp : pastKernel o) (hq : ¬ pastBuffers o) :
    main o = Except.ok (abortedRun o (callsBuffers o)) := by
  rcases main_cases o with c | c | c | c | c | c | c | c | c | c | c | c | c
  · exact absurd hp.1.1.1.1.1 c.1
  · exact absurd hp.1.1.1.1 c.2.1
  · exact absurd hp.1.1.1 c.2.1
  · exact absurd hp.1.1 c.2.1
  · exact absurd hp.1 c.2.1
  · exact absurd hp c.2.1
  · exact c.2.2
  · exact absurd c.1 hq
  · exact absurd c.1.1 hq
  · exact absurd c.1.1.1 hq
  · exact absurd c.1.1.1.1 hq
  · exact absurd c.1.1.1.1.1 hq
  · exact absurd c.1.1.1.1.1.1 hq

/-- A run that gets past the buffer allocations and not past the upload stops right
after the latter. -/
theorem main_stops_at_upload (o : Outcomes) (hp : pastBuffers o) (hq : ¬ pastUpload o) :
    main o = Except.ok (abortedRun o (callsUpload o)) := by
  rcases main_cases o with c | c | c | c | c | c | c | c | c | c | c | c | c
  · exact absurd hp.1.1.1.1.1.1 c.1
  · exact absurd hp.1.1.1.1.1 c.2.1
  · exact absurd hp.1.1.1.1 c.2.1
  · exact absurd hp.1.1.1 c.2.1
  · exact absurd hp.1.1 c.2.1
  · exact absurd hp.1 c.2.1
  · exact absurd hp c.2.1
  · exact c.2.2
  · exact absurd c.1 hq
  · exact absurd c.1.1 hq
  · exact absurd c.1.1.1 hq
  · exact absurd c.1.1.1.1 hq
  · exact absurd c.1.1.1.1.1 hq

/-- A run that gets past the upload and not past the argument bindings stops right
after the latter. -/
theorem main_stops_at_args (o : Outcomes) (hp : pastUpload o) (hq : ¬ pastArgs o) :
    main o = Except.ok (abortedRun o (callsArgs o)) := by
  rcases main_cases o with c | c | c | c | c | c | c | c | c | c | c | c | c
  · exact absurd hp.1.1.1.1.1.1.1 c.1
  · exact absurd hp.1.1.1.1.1.1 c.2.1
  · exact absurd hp.1.1.1.1.1 c.2.1
  · exact absurd hp.1.1.1.1 c.2.1
  · exact absurd hp.1.1.1 c.2.1
  · exact absurd hp.1.1 c.2.1
  · exact absurd hp.1 c.2.1
  · exact absurd hp c.2.1
  · exact c.2.2
  · exact absurd c.1 hq
  · exact absurd c.1.1 hq
  · exact absurd c.1.1.1 hq
  · exact absurd c.1.1.1.1 hq

/-- A run that gets past the argument bindings and not past the work-group size query stops right
after the latter. -/
theorem main_stops_at_query (o : Outcomes) (hp : pastArgs o) (hq : ¬ pastQuery o) :
    main o = Except.ok (abortedRun o (callsQuery o)) := by
  rcases main_cases o with c | c | c | c | c | c | c | c | c | c | c | c | c
  · exact absurd hp.1.1.1.1.1.1.1.1 c.1
  · exact absurd hp.1.1.1.1.1.1.1 c.2.1
  · exact absurd hp.1.1.1.1.1.1 c.2.1
  · exact absurd hp.1.1.1.1.1 c.2.1
  · exact absurd hp.1.1.1.1 c.2.1
  · exact absurd hp.1.1.1 c.2.1
  · exact absurd hp.1.1 c.2.1
  · exact absurd hp.1 c.2.1
  · exact absurd hp c.2.1
  · exact c.2.2
  · exact absurd c.1 hq
  · exact absurd c.1.1 hq
  · exact absurd c.1.1.1 hq

/-- A run that gets past the work-group size query and not past the dispatch stops right
after the latter. -/
theorem main_stops_at_dispatch (o : Outcomes) (hp : pastQuery o) (hq : ¬ pastDispatch o) :
    main o = Except.ok (abortedRun o (callsDispatch o)) := by
  rcases main_cases o with c | c | c | c | c | c | c | c | c | c | c | c | c
  · exact absurd hp.1.1.1.1.1.1.1.1.1 c.1
  · exact absurd hp.1.1.1.1.1.1.1.1 c.2.1
  · exact absurd hp.1.1.1.1.1.1.1 c.2.1
  · exact absurd hp.1.1.1.1.1.1 c.2.1
  · exact absurd hp.1.1.1.1.1 c.2.1
  · exact absurd hp.1.1.1.1 c.2.1
  · exact absurd hp.1.1.1 c.2.1
  · exact absurd hp.1.1 c.2.1
  · exact absurd hp.1 c.2.1
  · exact absurd hp c.2.1
  · exact c.2.2
  · exact absurd c.1 hq
  · exact absurd c.1.1 hq

/-- A run that gets past the dispatch and not past the download stops right
after the latter. -/
theorem main_stops_at_download (o : Outcomes) (hp : pastDispatch o) (hq : ¬ pastDownload o) :
    main o = Except.ok (abortedRun o (callsDownload o)) := by
  rcases main_cases o with c | c | c | c | c | c | c | c | c | c | c | c | c
  · exact absurd hp.1.1.1.1.1.1.1.1.1.1 c.1
  · exact absurd hp.1.1.1.1.1.1.1.1.1 c.2.1
  · exact absurd hp.1.1.1.1.1.1.1.1 c.2.1
  · exact absurd hp.1.1.1.1.1.1.1 c.2.1
  · exact absurd hp.1.1.1.1.1.1 c.2.1
  · exact absurd hp.1.1.1.1.1 c.2.1
  · exact absurd hp.1.1.1.1 c.2.1
  · exact absurd hp.1.1.1 c.2.1
  · exact absurd hp.1.1 c.2.1
  · exact absurd hp.1 c.2.1
  · exact absurd hp c.2.1
  · exact c.2.2
  · exact absurd c.1 hq

/-- No call of a stage later than `s` occurs among the calls up to the end of `s`. -/
theorem stage_calls_bound (o : Outcomes) (s : Stage) :
    ∀ c ∈ s.calls o, c.stageIndex ≤ s.index := by
  have h : (s.calls o).all (fun c => decide (c.stageIndex ≤ s.index)) = true := by
    cases s <;>
      simp only [Stage.calls, Stage.index, callsDownload, callsDispatch, callsQuery, callsArgs,
        callsUpload, callsBuffers, callsKernel, callsBuild, callsProgram, callsQueue,
        callsContext, callsLookup, print_device_info, List.all_append, List.all_cons,
        List.all_nil, Call.stageIndex] <;>
      rfl
  intro c hc
  exact of_decide_eq_true (List.all_eq_true.mp h c hc)

/-- No release call occurs among the calls up to the end of a stage. -/
theorem stage_calls_released (o : Outcomes) (s : Stage) : released (s.calls o) = [] := by
  cases s <;>
    simp only [Stage.calls, released, callsDownload, callsDispatch, callsQuery, callsArgs,
      callsUpload, callsBuffers, callsKernel, callsBuild, callsProgram, callsQueue,
      callsContext, callsLookup, print_device_info, List.filterMap_append,
      List.filterMap_cons, List.filterMap_nil, Call.releases, List.append_nil]

/-- A list without released resource holds no release call. -/
theorem no_release_call_of_released_nil (t : List Call) (h : released t = []) :
    ∀ c ∈ t, c.releases = none := by
  intro c hc
  have hnil : List.filterMap Call.releases t = [] := h
  cases hcr : c.releases with
  | none => rfl
  | some x =>
    have hx : x ∈ List.filterMap Call.releases t := List.mem_filterMap.mpr ⟨c, hc, hcr⟩
    rw [hnil] at hx
    exact absurd hx (List.not_mem_nil _)

/-- A run stops at the first stage that fails, after the calls up to the end of
that stage. -/
theorem main_stops_at_stage (o : Outcomes) (s : Stage) (hs : s.fails o)
    (hreach : ∀ s2 : Stage, s2.index < s.index → ¬ s2.fails o) :
    main o = Except.ok (abortedRun o (s.calls o)) := by
  have e0 : Stage.lookup.index < s.index → pastLookup o := fun h => by
    have := hreach Stage.lookup h
    simp only [Stage.fails, not_not] at this
    exact this
  have e1 : Stage.context.index < s.index → pastContext o := fun h =>
    ⟨e0 (Nat.lt_trans (by decide) h), hreach Stage.context h⟩
  have e2 : Stage.queue.index < s.index → pastQueue o := fun h =>
    ⟨e1 (Nat.lt_trans (by decide) h), hreach Stage.queue h⟩
  have e3 : Stage.program.index < s.index → pastProgram o := fun h =>
    ⟨e2 (Nat.lt_trans (by decide) h), hreach Stage.program h⟩
  have e4 : Stage.build.index < s.index → pastBuild o := fun h =>
    ⟨e3 (Nat.lt_trans (by decide) h), not_not.mp (hreach Stage.build h)⟩
  have e5 : Stage.kernel.index < s.index → pastKernel o := fun h => by
    have := hreach Stage.kernel h
    simp only [Stage.fails, not_or, not_not] at this
    exact ⟨e4 (Nat.lt_trans (by decide) h), this.1, this.2⟩
  have e6 : Stage.buffers.index < s.index → pastBuffers o := fun h => by
    have := hreach Stage.buffers h
    simp only [Stage.fails, not_or] at this
    exact ⟨e5 (Nat.lt_trans (by decide) h), this.1, this.2⟩
  have e7 : Stage.upload.index < s.index → pastUpload o := fun h =>
    ⟨e6 (Nat.lt_trans (by decide) h), not_not.mp (hreach Stage.upload h)⟩
  have e8 : Stage.args.index < s.index → pastArgs o := fun h => by
    have := hreach Stage.args h
    simp only [Stage.fails, not_or, not_not] at this
    exact ⟨e7 (Nat.lt_trans (by decide) h), this.1, this.2.1, this.2.2⟩
  have e9 : Stage.query.index < s.index → pastQuery o := fun h =>
    ⟨e8 (Nat.lt_trans (by decide) h), not_not.mp (hreach Stage.query h)⟩
  have e10 : Stage.dispatch.index < s.index → pastDispatch o := fun h =>
    ⟨e9 (Nat.lt_trans (by decide) h), not_not.mp (hreach Stage.dispatch h)⟩
  cases s with
  | lookup => exact main_stops_at_lookup o (fun h => hs h)
  | context => exact main_stops_at_context o (e0 (by decide)) (fun h => h.2 hs)
  | queue => exact main_stops_at_queue o (e1 (by decide)) (fun h => h.2 hs)
  | program => exact main_stops_at_program o (e2 (by decide)) (fun h => h.2 hs)
  | build => exact main_stops_at_build o (e3 (by decide)) (fun h => hs h.2)
  | kernel =>
    exact main_stops_at_kernel o (e4 (by decide))
      (fun h => hs.elim (fun a => h.2.1 a) (fun a => a h.2.2))
  | buffers =>
    exact main_stops_at_buffers o (e5 (by decide))
      (fun h => hs.elim (fun a => h.2.1 a) (fun a => h.2.2 a))
  | upload => exact main_stops_at_upload o (e6 (by decide)) (fun h => hs h.2)
  | args =>
    exact main_stops_at_args o (e7 (by decide))
      (fun h => hs.elim (fun a => a h.2.1)
        (fun b => b.elim (fun a => a h.2.2.1) (fun a => a h.2.2.2)))
  | query => exact main_stops_at_query o (e8 (by decide)) (fun h => hs h.2)
  | dispatch => exact main_stops_at_dispatch o (e9 (by decide)) (fun h => hs h.2)
  | download => exact main_stops_at_download o (e10 (by decide)) (fun h => hs h.2)

/-- Among the stages that fail there is a first one. -/
theorem exists_first_failing_stage (o : Outcomes) (h : ∃ s : Stage, s.fails o) :
    ∃ s : Stage, s.fails o ∧ ∀ s2 : Stage, s2.index < s.index → ¬ s2.fails o := by
  classical
  have hex : ∃ n, ∃ s : Stage, s.index = n ∧ s.fails o := by
    obtain ⟨s, hs⟩ := h
    exact ⟨s.index, s, rfl, hs⟩
  obtain ⟨s, hidx, hs⟩ := Nat.find_spec hex
  refine ⟨s, hs, fun s2 hlt hs2 => ?_⟩
  rw [hidx] at hlt
  exact Nat.find_min hex hlt ⟨s2, rfl, hs2⟩

/-- The exit status apart from the drain: non-zero if a stage whose status is
inspected fails, zero if no such stage fails and the drain succeeds. -/
theorem exit_status_apart_from_drain (o : Outcomes) :
    ∃ r, main o = Except.ok r ∧ ((∃ s : Stage, s.fails o) → r.status ≠ 0) ∧
      ((∀ s : Stage, ¬ s.fails o) → o.finish = CL_SUCCESS → r.status = 0) := by
  by_cases h : ∃ s : Stage, s.fails o
  · obtain ⟨s, hs, hreach⟩ := exists_first_failing_stage o h
    exact ⟨_, main_stops_at_stage o s hs hreach, fun _ => (by decide : (1 : Int) ≠ 0),
      fun hn => absurd hs (hn s)⟩
  · have hn : ∀ s : Stage, ¬ s.fails o := fun s hs => h ⟨s, hs⟩
    have e0 := hn Stage.lookup
    have e1 := hn Stage.context
    have e2 := hn Stage.queue
    have e3 := hn Stage.program
    have e4 := hn Stage.build
    have e5 := hn Stage.kernel
    have e6 := hn Stage.buffers
    have e7 := hn Stage.upload
    have e8 := hn Stage.args
    have e9 := hn Stage.query
    have e10 := hn Stage.dispatch
    have e11 := hn Stage.download
    simp only [Stage.fails, not_or, not_not] at e0 e1 e2 e3 e4 e5 e6 e7 e8 e9 e10 e11
    have hp : pastDownload o :=
      ⟨⟨⟨⟨⟨⟨⟨⟨⟨⟨⟨e0, e1⟩, e2⟩, e3⟩, e4⟩, e5.1, e5.2⟩, e6.1, e6.2⟩, e7⟩, e8.1, e8.2.1, e8.2.2⟩,
        e9⟩, e10⟩, e11⟩
    exact ⟨_, main_completed o hp, fun hex => absurd hex h, fun _ _ => rfl⟩

/-- The dispatches of a run: one, with the fixed grid, if the run gets past the
work-group size query, and none otherwise. -/
theorem dispatches_main (o : Outcomes) :
    ∃ r, main o = Except.ok r ∧
      (pastQuery o → r.trace.filter Call.isDispatch =
        [Call.clEnqueueNDRangeKernel o.createCommandQueue.handle o.createKernel.handle 1 128
          none o.enqueueNDRangeKernel]) ∧
      (¬ pastQuery o → r.trace.filter Call.isDispatch = []) ∧
      ((pastDownload o → r.status = 0) ∧ (r.status = 0 → pastDownload o) ∧
        (r.status = 0 ∨ r.status = 1)) := by
  have hone : ¬ ((1 : Int) = 0) := by decide
  have hst : ∀ t, (pastDownload o → False) →
      ((pastDownload o → (abortedRun o t).status = 0) ∧
        ((abortedRun o t).status = 0 → pastDownload o) ∧
        ((abortedRun o t).status = 0 ∨ (abortedRun o t).status = 1)) :=
    fun t hn => ⟨fun h => absurd h hn, fun h => absurd h hone, Or.inr rfl⟩
  rcases main_cases o with c | c | c | c | c | c | c | c | c | c | c | c | c
  · exact ⟨_, c.2, fun h => absurd h.1.1.1.1.1.1.1.1.1 c.1, fun _ => rfl,
      hst _ (fun h => c.1 h.1.1.1.1.1.1.1.1.1.1.1)⟩
  · exact ⟨_, c.2.2, fun h => absurd h.1.1.1.1.1.1.1.1 c.2.1, fun _ => rfl,
      hst _ (fun h => c.2.1 h.1.1.1.1.1.1.1.1.1.1)⟩
  · exact ⟨_, c.2.2, fun h => absurd h.1.1.1.1.1.1.1 c.2.1, fun _ => rfl,
      hst _ (fun h => c.2.1 h.1.1.1.1.1.1.1.1.1)⟩
  · exact ⟨_, c.2.2, fun h => absurd h.1.1.1.1.1.1 c.2.1, fun _ => rfl,
      hst _ (fun h => c.2.1 h.1.1.1.1.1.1.1.1)⟩
  · exact ⟨_, c.2.2, fun h => absurd h.1.1.1.1.1 c.2.1, fun _ => rfl,
      hst _ (fun h => c.2.1 h.1.1.1.1.1.1.1)⟩
  · exact ⟨_, c.2.2, fun h => absurd h.1.1.1.1 c.2.1, fun _ => rfl,
      hst _ (fun h => c.2.1 h.1.1.1.1.1.1)⟩
  · exact ⟨_, c.2.2, fun h => absurd h.1.1.1 c.2.1, fun _ => rfl,
      hst _ (fun h => c.2.1 h.1.1.1.1.1)⟩
  · exact ⟨_, c.2.2, fun h => absurd h.1.1 c.2.1, fun _ => rfl,
      hst _ (fun h => c.2.1 h.1.1.1.1)⟩
  · exact ⟨_, c.2.2, fun h => absurd h.1 c.2.1, fun _ => rfl,
      hst _ (fun h => c.2.1 h.1.1.1)⟩
  · exact ⟨_, c.2.2, fun h => absurd h c.2.1, fun _ => rfl,
      hst _ (fun h => c.2.1 h.1.1)⟩
  · refine ⟨_, c.2.2, fun _ => ?_, fun h => absurd c.1 h, hst _ (fun h => c.2.1 h.1)⟩
    simp only [abortedRun, callsDispatch, callsQuery, callsArgs, callsUpload, callsBuffers,
      callsKernel, callsBuild, callsProgram, callsQueue, callsContext, callsLookup,
      print_device_info, List.filter_append, List.filter_cons, List.filter_nil,
      Call.isDispatch, List.append_nil, if_true, List.nil_append, DATA_SIZE]
    simp
  · refine ⟨_, c.2.2, fun _ => ?_, fun h => absurd c.1.1 h, hst _ (fun h => c.2.1 h)⟩
    simp only [abortedRun, callsDownload, callsDispatch, callsQuery, callsArgs, callsUpload,
      callsBuffers,
      callsKernel, callsBuild, callsProgram, callsQueue, callsContext, callsLookup,
      print_device_info, List.filter_append, List.filter_cons, List.filter_nil,
      Call.isDispatch, List.append_nil, if_true, List.nil_append, DATA_SIZE]
    simp
  · refine ⟨_, c.2, fun _ => ?_, fun h => absurd c.1.1.1 h,
      fun _ => rfl, fun _ => c.1, Or.inl rfl⟩
    simp only [completedRun, callsCleanup, callsDownload, callsDispatch, callsQuery, callsArgs,
      callsUpload, callsBuffers,
      callsKernel, callsBuild, callsProgram, callsQueue, callsContext, callsLookup,
      print_device_info, List.filter_append, List.filter_cons, List.filter_nil,
      Call.isDispatch, List.append_nil, if_true, List.nil_append, DATA_SIZE]
    simp

/-! ## The claims -/

/-- C1 (amended). For every `N` below `2^31` and every input array of `N` integers
with each value in `[0,100)`, running the `cube` kernel once per work-item index
`0 .. N - 1` with `count = N`, on any initial contents of the output buffer, yields
an output of `N` cells with `output[i] = input[i]^3` for every `i < N`, and the host
verification loop over that input and output ends with `correct = N`. -/
theorem cube_kernel_correct (N : Nat) (input out0 : List Int) (hN : N < 2147483648)
    (hin : input.length = N) (hout : out0.length = N)
    (hrange : ∀ x ∈ input, 0 ≤ x ∧ x < 100) :
    ∃ output, runCube input out0 N = Except.ok output ∧ output.length = N ∧
      (∀ i, i < N → output.getD i 0 = (input.getD i 0) ^ 3) ∧
      verifyLoop N input output = Except.ok N := by
  have hrun : runCube input out0 N = Except.ok (input.map cube32) := by
    have h := dispatch_cube_eq input out0 N hin hout N (le_refl _) (by omega)
    rw [List.take_of_length_le (by omega), List.drop_of_length_le (by omega),
      List.append_nil] at h
    exact h
  have hget : ∀ i, i < N → (input.map cube32).getD i 0 = cube32 (input.getD i 0) := by
    intro i hi
    rw [List.getD_eq_getElem _ _ (by simpa [hin] using hi),
      List.getD_eq_getElem _ _ (by omega), List.getElem_map]
  refine ⟨input.map cube32, hrun, by simp [hin], ?_, ?_⟩
  · intro i hi
    rw [hget i hi]
    have hmem : input.getD i 0 ∈ input := by
      rw [List.getD_eq_getElem _ _ (by omega)]
      exact List.getElem_mem _
    exact cube32_eq_pow _ (hrange _ hmem).1 (hrange _ hmem).2
  · rw [verifyLoop_eq N input (input.map cube32) hN hin (by simp [hin])]
    refine congrArg Except.ok ?_
    have hall : ∀ i ∈ List.range N, matchesAt input (input.map cube32) i = true := by
      intro i hi
      exact decide_eq_true (hget i (List.mem_range.mp hi))
    rw [List.countP_eq_length.mpr hall, List.length_range]

/-- C1, the scenario of the specification: input `[2, 5, 9]` with `count = 3` gives
output `[8, 125, 729]` and `correct = 3`. -/
theorem cube_kernel_correct_witness :
    (3 < 2147483648 ∧ [(2 : Int), 5, 9].length = 3 ∧ [(7 : Int), 7, 7].length = 3 ∧
      ∀ x ∈ [(2 : Int), 5, 9], 0 ≤ x ∧ x < 100) ∧
    (∃ output, runCube [2, 5, 9] [7, 7, 7] 3 = Except.ok output ∧ output.length = 3 ∧
      (∀ i, i < 3 → output.getD i 0 = (([2, 5, 9] : List Int).getD i 0) ^ 3) ∧
      verifyLoop 3 [2, 5, 9] output = Except.ok 3) ∧
    runCube [2, 5, 9] [7, 7, 7] 3 = Except.ok [8, 125, 729] ∧
    verifyLoop 3 [2, 5, 9] [8, 125, 729] = Except.ok 3 :=
  ⟨⟨by decide, by decide, by decide, by decide⟩,
    cube_kernel_correct 3 [2, 5, 9] [7, 7, 7] (by decide) (by decide) (by decide) (by decide),
    by decide, by decide⟩

/-- C1 fails as stated: with `N = 2^31 + 1` cells, all holding `0`, the work-item
with global id `2^31` stores that id into `int i` as `-2^31`, passes the unsigned
test `i < count`, and reads `input[-2^31]`, outside the array. The run faults and
yields no output. -/
theorem cube_kernel_faults_above_int_max :
    (List.replicate 2147483649 (0 : Int)).length = 2147483649 ∧
    (∀ x ∈ List.replicate 2147483649 (0 : Int), 0 ≤ x ∧ x < 100) ∧
    runCube (List.replicate 2147483649 0) (List.replicate 2147483649 0) 2147483649 =
      Except.error Err.outOfBounds := by
  refine ⟨List.length_replicate _ _, ?_, ?_⟩
  · intro x hx
    rw [List.eq_of_mem_replicate hx]
    decide
  · have hprev := dispatch_cube_eq (List.replicate 2147483649 0) (List.replicate 2147483649 0)
      2147483649 (List.length_replicate _ _) (List.length_replicate _ _)
      2147483648 (by decide) (le_refl _)
    show dispatch _ (2147483648 + 1) _ = _
    rw [dispatch, hprev]
    exact cube_faults_at_int_min _ _

/-- C3. For any two arrays `data` and `results` of length `count` (`count` is
`DATA_SIZE = 128` in `main`; any value below `2^31` is covered), the verification
loop returns, and leaves `correct` equal to the number of indices `i < count` with
`results[i] == data[i] * data[i] * data[i]` under exact 32-bit equality; hence
`0 ≤ correct ≤ count`, and `correct = count` exactly when every cell matches. -/
theorem verification_counts_matches (count : Nat) (data results : List Int)
    (hcount : count < 2147483648) (hd : data.length = count)
    (hr : results.length = count) :
    ∃ correct, verifyLoop count data results = Except.ok correct ∧
      correct = ((List.range count).filter
        (fun i => decide (results.getD i 0 = cube32 (data.getD i 0)))).length ∧
      0 ≤ correct ∧ correct ≤ count ∧
      (correct = count ↔ ∀ i, i < count → results.getD i 0 = cube32 (data.getD i 0)) := by
  refine ⟨List.countP (matchesAt data results) (List.range count),
    verifyLoop_eq count data results hcount hd hr, ?_, Nat.zero_le _, ?_, ?_⟩
  · rw [List.countP_eq_length_filter]
    rfl
  · calc List.countP (matchesAt data results) (List.range count)
        ≤ (List.range count).length := List.countP_le_length _
      _ = count := List.length_range count
  · constructor
    · intro h i hi
      have hlen : List.countP (matchesAt data results) (List.range count) =
          (List.range count).length := by rw [h, List.length_range]
      have hb := List.countP_eq_length.mp hlen i (List.mem_range.mpr hi)
      exact of_decide_eq_true hb
    · intro h
      have hall : ∀ i ∈ List.range count, matchesAt data results i = true :=
        fun i hi => decide_eq_true (h i (List.mem_range.mp hi))
      rw [List.countP_eq_length.mpr hall, List.length_range]

/-- C3 on arrays of three cells of which the middle one does not match. -/
theorem verification_counts_matches_witness :
    ((3 < 2147483648 ∧ [(2 : Int), 5, 9].length = 3 ∧ [(8 : Int), 0, 729].length = 3) ∧
      ∃ correct, verifyLoop 3 [2, 5, 9] [8, 0, 729] = Except.ok correct ∧
        correct = ((List.range 3).filter (fun i =>
          decide (([8, 0, 729] : List Int).getD i 0 =
            cube32 (([2, 5, 9] : List Int).getD i 0)))).length ∧
        0 ≤ correct ∧ correct ≤ 3 ∧
        (correct = 3 ↔ ∀ i, i < 3 → ([8, 0, 729] : List Int).getD i 0 =
          cube32 (([2, 5, 9] : List Int).getD i 0))) ∧
    verifyLoop 3 [2, 5, 9] [8, 0, 729] = Except.ok 2 :=
  ⟨⟨⟨by decide, by decide, by decide⟩,
    verification_counts_matches 3 [2, 5, 9] [8, 0, 729] (by decide) (by decide) (by decide)⟩,
    by decide⟩

/-- C10. For every sequence of non-negative values returned by `rand()`, the fill
loop of `main` returns, the array `data` it leaves has exactly 128 cells, every
cell satisfies `0 ≤ data[i] < 100`, and in the run of `main` the array `results`
has the same length, 128. -/
theorem fill_range (o : Outcomes) (hrand : ∀ k, 0 ≤ o.rand k) :
    ∃ data, fillLoop o.rand DATA_SIZE (uninit o.stackData DATA_SIZE) = Except.ok data ∧
      data.length = 128 ∧ (∀ i, i < 128 → 0 ≤ data.getD i 0 ∧ data.getD i 0 < 100) ∧
      (∀ x ∈ data, 0 ≤ x ∧ x < 100) ∧
      ∃ r, main o = Except.ok r ∧ r.data = data ∧ r.results.length = 128 ∧
        r.results.length = r.data.length := by
  have hmem : ∀ x ∈ filled o.rand, 0 ≤ x ∧ x < 100 := by
    intro x hx
    simp only [filled, List.mem_map] at hx
    obtain ⟨j, _, rfl⟩ := hx
    have h0 := hrand j
    rw [Int.tmod_eq_emod h0 (by decide)]
    omega
  have hres : (downloaded o).length = 128 :=
    readInto_length _ _ _ (by simp [uninit, DATA_SIZE])
  have hun : (uninit o.stackResults DATA_SIZE).length = 128 := by simp [uninit, DATA_SIZE]
  refine ⟨filled o.rand, fillLoop_main _ _, filled_length _, ?_, hmem, ?_⟩
  · intro i hi
    have hlt : i < (filled o.rand).length := by rw [filled_length]; exact hi
    rw [List.getD_eq_getElem _ _ hlt]
    exact hmem _ (List.getElem_mem _)
  · by_cases hp : pastDownload o
    · exact ⟨completedRun o, main_completed o hp, rfl, hres, by
        show (downloaded o).length = (filled o.rand).length
        rw [hres, filled_length]; rfl⟩
    · obtain ⟨t, ht, _⟩ := main_aborted o hp
      exact ⟨abortedRun o t, ht, rfl, hun, by
        show (uninit o.stackResults DATA_SIZE).length = (filled o.rand).length
        rw [hun, filled_length]; rfl⟩

/-- C10 on the outcomes `allSucceed`, whose `rand()` returns `37 * k + 11`. -/
theorem fill_range_witness :
    (∀ k, 0 ≤ allSucceed.rand k) ∧
    ∃ data, fillLoop allSucceed.rand DATA_SIZE (uninit allSucceed.stackData DATA_SIZE) =
        Except.ok data ∧
      data.length = 128 ∧ (∀ i, i < 128 → 0 ≤ data.getD i 0 ∧ data.getD i 0 < 100) ∧
      (∀ x ∈ data, 0 ≤ x ∧ x < 100) ∧
      ∃ r, main allSucceed = Except.ok r ∧ r.data = data ∧ r.results.length = 128 ∧
        r.results.length = r.data.length :=
  ⟨fun k => by simp only [allSucceed]; omega,
    fill_range allSucceed (fun k => by simp only [allSucceed]; omega)⟩

/-- C2, the code at the failing input: when every call succeeds except the drain
`clFinish`, which reports a failure, no stage whose status is inspected fails and
`main` returns the exit status `0`, although a stage of the pipeline failed. -/
theorem exit_status_zero_on_drain_failure :
    drainFails.finish ≠ CL_SUCCESS ∧ (∀ s : Stage, ¬ s.fails drainFails) ∧
    ∃ r, main drainFails = Except.ok r ∧ r.status = 0 ∧ Call.clFinish 2 (-5) ∈ r.trace := by
  refine ⟨by decide, fun s => by cases s <;> decide, completedRun drainFails,
    main_completed drainFails (pastDownload_of_not_fails drainFails (by decide) (by decide)),
    rfl, ?_⟩
  simp [completedRun, callsDownload, drainFails, allSucceed]

/-- C4 (amended). In every run of `main` in which all stages succeed, the six
resources are created in the order context, command queue, program, kernel, input
buffer, output buffer, and each is released exactly once, after every other call,
in the order input buffer, output buffer, program, kernel, command queue, context:
the queue and the context are released last, in reverse order of their creation,
while the two buffers, and the program and the kernel, are released in the order
of their creation. -/
theorem release_order (o : Outcomes) (hc : Conforming o) (hs : ¬ CheckedStageFails o) :
    ∃ r pre, main o = Except.ok r ∧ r.status = 0 ∧
      created r.trace =
        [Resource.context o.createContext.handle, Resource.queue o.createCommandQueue.handle,
         Resource.program o.createProgramWithSource.handle,
         Resource.kernel o.createKernel.handle,
         Resource.buffer o.createBufferInput, Resource.buffer o.createBufferOutput] ∧
      released r.trace =
        [Resource.buffer o.createBufferInput, Resource.buffer o.createBufferOutput,
         Resource.program o.createProgramWithSource.handle,
         Resource.kernel o.createKernel.handle,
         Resource.queue o.createCommandQueue.handle, Resource.context o.createContext.handle] ∧
      r.trace = pre ++
        [Call.clReleaseMemObject o.createBufferInput,
         Call.clReleaseMemObject o.createBufferOutput,
         Call.clReleaseProgram o.createProgramWithSource.handle,
         Call.clReleaseKernel o.createKernel.handle,
         Call.clReleaseCommandQueue o.createCommandQueue.handle,
         Call.clReleaseContext o.createContext.handle] ∧
      released pre = [] := by
  have hp := pastDownload_of_not_fails o hc hs
  have hp2 := hp
  simp only [pastDownload, pastDispatch, pastQuery, pastArgs, pastUpload, pastBuffers,
    pastKernel, pastBuild, pastProgram, pastQueue, pastContext, pastLookup] at hp2
  refine ⟨completedRun o, callsDownload o, main_completed o hp, rfl, ?_, ?_, rfl, ?_⟩
  · simp only [completedRun, created, callsCleanup, callsDownload, callsDispatch, callsQuery,
      callsArgs, callsUpload, callsBuffers, callsKernel, callsBuild, callsProgram, callsQueue,
      callsContext, callsLookup, print_device_info, List.filterMap_append,
      List.filterMap_cons, List.filterMap_nil, Call.creates, List.append_nil, hp2, if_false,
      List.nil_append, List.cons_append, List.singleton_append]
  · simp only [completedRun, released, callsCleanup, callsDownload, callsDispatch, callsQuery,
      callsArgs, callsUpload, callsBuffers, callsKernel, callsBuild, callsProgram, callsQueue,
      callsContext, callsLookup, print_device_info, List.filterMap_append,
      List.filterMap_cons, List.filterMap_nil, Call.releases, List.append_nil,
      List.nil_append, List.cons_append, List.singleton_append]
  · simp only [released, callsDownload, callsDispatch, callsQuery,
      callsArgs, callsUpload, callsBuffers, callsKernel, callsBuild, callsProgram, callsQueue,
      callsContext, callsLookup, print_device_info, List.filterMap_append,
      List.filterMap_cons, List.filterMap_nil, Call.releases, List.append_nil]

/-- C4 (amended) on outcomes in which every call succeeds. -/
theorem release_order_witness :
    (Conforming allSucceed ∧ ¬ CheckedStageFails allSucceed) ∧
    ∃ r, main allSucceed = Except.ok r ∧ r.status = 0 ∧
      created r.trace =
        [Resource.context 1, Resource.queue 2, Resource.program 3, Resource.kernel 4,
         Resource.buffer 5, Resource.buffer 6] ∧
      released r.trace =
        [Resource.buffer 5, Resource.buffer 6, Resource.program 3, Resource.kernel 4,
         Resource.queue 2, Resource.context 1] := by
  obtain ⟨r, _, h1, h2, h3, h4, _, _⟩ := release_order allSucceed (by decide) (by decide)
  exact ⟨⟨by decide, by decide⟩, r, h1, h2, h3, h4⟩

/-- C4 fails as stated: in the run in which every call succeeds the release
sequence is not the reverse of the creation sequence (the input buffer is released
before the output buffer, and the program before the kernel). -/
theorem release_order_not_reverse :
    ¬ CheckedStageFails allSucceed ∧
    ∃ r, main allSucceed = Except.ok r ∧ r.status = 0 ∧
      created r.trace =
        [Resource.context 1, Resource.queue 2, Resource.program 3, Resource.kernel 4,
         Resource.buffer 5, Resource.buffer 6] ∧
      released r.trace =
        [Resource.buffer 5, Resource.buffer 6, Resource.program 3, Resource.kernel 4,
         Resource.queue 2, Resource.context 1] ∧
      released r.trace ≠ (created r.trace).reverse := by
  refine ⟨by decide, completedRun allSucceed,
    main_completed allSucceed (pastDownload_of_not_fails allSucceed (by decide) (by decide)),
    rfl, by decide, by decide, by decide⟩

/-- C5 (amended). For every stage of `main` that can fail, when that stage is
reached (no earlier stage fails) and fails, `main` terminates with a non-zero
status after exactly the calls of the pipeline up to the end of that stage: it
issues no call of a later stage and no release call, so the resources created
earlier in the run are not released by the program. -/
theorem no_release_on_failure (o : Outcomes) (s : Stage) (hs : s.fails o)
    (hreach : ∀ s2 : Stage, s2.index < s.index → ¬ s2.fails o) :
    ∃ r, main o = Except.ok r ∧ r.status ≠ 0 ∧ r.trace = s.calls o ∧
      (∀ c ∈ r.trace, c.stageIndex ≤ s.index) ∧ released r.trace = [] ∧
      ∀ c ∈ r.trace, c.releases = none :=
  ⟨abortedRun o (s.calls o), main_stops_at_stage o s hs hreach, (by decide : (1 : Int) ≠ 0),
    rfl, stage_calls_bound o s, stage_calls_released o s,
    no_release_call_of_released_nil _ (stage_calls_released o s)⟩

/-- C5 (amended) on outcomes in which the queue creation fails: the run ends after
the lookup, the device queries, the context creation and the queue creation. -/
theorem no_release_on_failure_witness :
    (Stage.queue.fails queueCreationFails ∧
      ∀ s2 : Stage, s2.index < Stage.queue.index → ¬ s2.fails queueCreationFails) ∧
    (∃ r, main queueCreationFails = Except.ok r ∧ r.status ≠ 0 ∧
      r.trace = Stage.queue.calls queueCreationFails ∧
      (∀ c ∈ r.trace, c.stageIndex ≤ Stage.queue.index) ∧ released r.trace = [] ∧
      ∀ c ∈ r.trace, c.releases = none) ∧
    (Stage.queue.calls queueCreationFails).drop 9 =
      [Call.clCreateContext 7 1 0, Call.clCreateCommandQueue 1 7 0 (-6)] :=
  have h1 : Stage.queue.fails queueCreationFails := by decide
  have h2 : ∀ s2 : Stage, s2.index < Stage.queue.index → ¬ s2.fails queueCreationFails :=
    fun s2 => by cases s2 <;> decide
  ⟨⟨h1, h2⟩, no_release_on_failure queueCreationFails Stage.queue h1 h2, by decide⟩

/-- C5 fails as stated: when the queue creation fails, the context created just
before is never released; `main` ends with status `1` and no release call. -/
theorem context_leaked_on_queue_failure :
    ∃ r, main queueCreationFails = Except.ok r ∧ r.status = 1 ∧
      created r.trace = [Resource.context 1] ∧ released r.trace = [] ∧
      released r.trace ≠ (created r.trace).reverse := by
  have hm : main queueCreationFails =
      Except.ok (abortedRun queueCreationFails (callsQueue queueCreationFails)) :=
    main_stops_at_queue queueCreationFails ⟨rfl, by decide⟩ (fun h => h.2 rfl)
  exact ⟨_, hm, rfl, by decide, by decide, by decide⟩

/-- C6. Whenever the program build reports failure, the run terminates with a
non-zero status and issues no call of the kernel-creation stage or of any later
stage; and if the build call was issued, the call that follows it fetches the
build log of that program for the device selected by the lookup into a buffer of
2048 bytes, and is the last call of the run. -/
theorem build_failure (o : Outcomes) (hb : o.buildProgram ≠ CL_SUCCESS) :
    ∃ r, main o = Except.ok r ∧ r.status ≠ 0 ∧ r.trace.filter Call.afterBuild = [] ∧
      ∀ p e, Call.clBuildProgram p e ∈ r.trace →
        ∃ pre, r.trace = pre ++
            [Call.clBuildProgram p e, Call.clGetProgramBuildInfo p o.device_id
              ProgramBuildParam.CL_PROGRAM_BUILD_LOG 2048] ∧
          Call.clGetDeviceIDs DeviceType.CL_DEVICE_TYPE_GPU 1 o.device_id CL_SUCCESS ∈ pre := by
  have hone : (1 : Int) ≠ 0 := by decide
  rcases main_cases o with c | c | c | c | c | c | c | c | c | c | c | c | c
  · refine ⟨_, c.2, hone, rfl, ?_⟩
    intro p e hmem
    simp [abortedRun, callsLookup] at hmem
  · refine ⟨_, c.2.2, hone, rfl, ?_⟩
    intro p e hmem
    simp [abortedRun, callsContext, callsLookup, print_device_info] at hmem
  · refine ⟨_, c.2.2, hone, rfl, ?_⟩
    intro p e hmem
    simp [abortedRun, callsQueue, callsContext, callsLookup, print_device_info] at hmem
  · refine ⟨_, c.2.2, hone, rfl, ?_⟩
    intro p e hmem
    simp [abortedRun, callsProgram, callsQueue, callsContext, callsLookup,
      print_device_info] at hmem
  · refine ⟨_, c.2.2, hone, rfl, ?_⟩
    intro p e hmem
    have hlook : o.getDeviceIDs = CL_SUCCESS := c.1.1.1.1
    have hpe : p = o.createProgramWithSource.handle ∧ e = o.buildProgram := by
      simpa [abortedRun, callsBuild, callsProgram, callsQueue, callsContext, callsLookup,
        print_device_info] using hmem
    refine ⟨callsProgram o, ?_, ?_⟩
    · rw [hpe.1, hpe.2]
      simp only [abortedRun, callsBuild, List.append_assoc, List.singleton_append]
    · simp [callsProgram, callsQueue, callsContext, callsLookup, hlook]
  · exact absurd c.1.2 hb
  · exact absurd c.1.1.2 hb
  · exact absurd c.1.1.1.2 hb
  · exact absurd c.1.1.1.1.2 hb
  · exact absurd c.1.1.1.1.1.2 hb
  · exact absurd c.1.1.1.1.1.1.2 hb
  · exact absurd c.1.1.1.1.1.1.1.2 hb
  · exact absurd c.1.1.1.1.1.1.1.1.2 hb

set_option maxRecDepth 100000 in
/-- C6 on outcomes in which the build fails: the build call is issued and the run
ends with the fetch of the log. -/
theorem build_failure_witness :
    buildFails.buildProgram ≠ CL_SUCCESS ∧
    (∃ r, main buildFails = Except.ok r ∧ r.status ≠ 0 ∧
      r.trace.filter Call.afterBuild = [] ∧
      ∀ p e, Call.clBuildProgram p e ∈ r.trace →
        ∃ pre, r.trace = pre ++
            [Call.clBuildProgram p e, Call.clGetProgramBuildInfo p buildFails.device_id
              ProgramBuildParam.CL_PROGRAM_BUILD_LOG 2048] ∧
          Call.clGetDeviceIDs DeviceType.CL_DEVICE_TYPE_GPU 1 buildFails.device_id CL_SUCCESS
            ∈ pre) ∧
    (main buildFails).toOption.map (fun r => (r.status, r.trace.drop 12)) =
      some (1, [Call.clBuildProgram 3 (-11), Call.clGetProgramBuildInfo 3 7 ProgramBuildParam.CL_PROGRAM_BUILD_LOG 2048]) :=
  ⟨by decide, build_failure buildFails (by decide), by decide⟩

set_option maxRecDepth 100000 in
/-- C7, the code at the failing input: when only the drain `clFinish` reports
failure, `main` does not stop; it issues the download and the release calls and
ends with status `0`. -/
theorem drain_failure_ignored :
    ∃ r pre, main drainFails = Except.ok r ∧ r.status = 0 ∧
      r.trace = pre ++
        [Call.clFinish 2 (-5), Call.clEnqueueReadBuffer 2 6 true 0 512 0,
         Call.clReleaseMemObject 5, Call.clReleaseMemObject 6, Call.clReleaseProgram 3,
         Call.clReleaseKernel 4, Call.clReleaseCommandQueue 2, Call.clReleaseContext 1] :=
  ⟨completedRun drainFails, callsDispatch drainFails,
    main_completed drainFails (pastDownload_of_not_fails drainFails (by decide) (by decide)),
    rfl, by decide⟩

/-- C8. In every run of `main` that reaches verification, the operations on the
command queue and the argument bindings are, in this order: a blocking upload of
the whole `data` array into the input buffer, the binding of slot 0 to the input
buffer, of slot 1 to the output buffer and of slot 2 to `count`, all three
successful, one dispatch, the drain, and a blocking download of the whole output
buffer into `results`. The two buffers are the ones allocated read-only and
write-only. -/
theorem queue_order (o : Outcomes) (r : Run) (hrun : main o = Except.ok r)
    (hver : r.correct.isSome = true) :
    r.trace.filter Call.isQueueOrBinding =
      [Call.clEnqueueWriteBuffer o.createCommandQueue.handle o.createBufferInput true 0
         (sizeof_int * r.data.length) r.data CL_SUCCESS,
       Call.clSetKernelArg o.createKernel.handle 0 (ArgValue.mem o.createBufferInput) CL_SUCCESS,
       Call.clSetKernelArg o.createKernel.handle 1 (ArgValue.mem o.createBufferOutput)
         CL_SUCCESS,
       Call.clSetKernelArg o.createKernel.handle 2 (ArgValue.uint DATA_SIZE) CL_SUCCESS,
       Call.clEnqueueNDRangeKernel o.createCommandQueue.handle o.createKernel.handle 1
         DATA_SIZE none CL_SUCCESS,
       Call.clFinish o.createCommandQueue.handle o.finish,
       Call.clEnqueueReadBuffer o.createCommandQueue.handle o.createBufferOutput true 0
         (sizeof_int * r.results.length) CL_SUCCESS] ∧
    Call.clCreateBuffer o.createContext.handle MemFlags.CL_MEM_READ_ONLY
      (sizeof_int * DATA_SIZE) o.createBufferInput ∈ r.trace ∧
    Call.clCreateBuffer o.createContext.handle MemFlags.CL_MEM_WRITE_ONLY
      (sizeof_int * DATA_SIZE) o.createBufferOutput ∈ r.trace := by
  by_cases hp : pastDownload o
  · have hr : r = completedRun o := by
      have h := main_completed o hp
      rw [hrun] at h
      exact Except.ok.inj h
    have hp2 := hp
    simp only [pastDownload, pastDispatch, pastQuery, pastArgs, pastUpload, pastBuffers,
      pastKernel, pastBuild, pastProgram, pastQueue, pastContext, pastLookup] at hp2
    have hres : (downloaded o).length = DATA_SIZE :=
      readInto_length _ _ _ (by simp [uninit])
    subst hr
    refine ⟨?_, ?_, ?_⟩
    · simp only [completedRun, callsCleanup, callsDownload, callsDispatch, callsQuery,
        callsArgs, callsUpload, callsBuffers, callsKernel, callsBuild, callsProgram, callsQueue,
        callsContext, callsLookup, print_device_info, List.filter_append,
        List.filter_cons, List.filter_nil, Call.isQueueOrBinding, List.append_nil, hp2,
        if_false, if_true, List.nil_append, List.cons_append, List.singleton_append,
        filled_length, hres]
      simp
    · simp [completedRun, callsDownload, callsDispatch, callsQuery,
        callsArgs, callsUpload, callsBuffers]
    · simp [completedRun, callsDownload, callsDispatch, callsQuery,
        callsArgs, callsUpload, callsBuffers]
  · obtain ⟨t, ht, _⟩ := main_aborted o hp
    rw [hrun] at ht
    have hr : r = abortedRun o t := Except.ok.inj ht
    rw [hr] at hver
    exact absurd (show false = true from hver) Bool.false_ne_true

set_option maxRecDepth 100000 in
/-- C8 on outcomes in which every call succeeds. -/
theorem queue_order_witness :
    (main allSucceed = Except.ok (completedRun allSucceed) ∧
      (completedRun allSucceed).correct.isSome = true) ∧
    (completedRun allSucceed).trace.filter Call.isQueueOrBinding =
      [Call.clEnqueueWriteBuffer 2 5 true 0 512 (filled allSucceed.rand) 0,
       Call.clSetKernelArg 4 0 (ArgValue.mem 5) 0,
       Call.clSetKernelArg 4 1 (ArgValue.mem 6) 0,
       Call.clSetKernelArg 4 2 (ArgValue.uint 128) 0,
       Call.clEnqueueNDRangeKernel 2 4 1 128 none 0,
       Call.clFinish 2 0,
       Call.clEnqueueReadBuffer 2 6 true 0 512 0] :=
  have hrun : main allSucceed = Except.ok (completedRun allSucceed) :=
    main_completed allSucceed (pastDownload_of_not_fails allSucceed (by decide) (by decide))
  ⟨⟨hrun, rfl⟩, (queue_order allSucceed (completedRun allSucceed) hrun rfl).1⟩

/-- C9. For every value the device returns as the preferred work-group size, every
dispatch issued by `main` is one-dimensional with global size 128 and with no
explicit local size, a run that completes issues exactly one dispatch, and
replacing the returned size by any other value changes neither the dispatches nor
the exit status. -/
theorem dispatch_grid (o : Outcomes) (v : Nat) :
    ∃ r r2, main o = Except.ok r ∧ main { o with local_size := v } = Except.ok r2 ∧
      (∀ c ∈ r.trace, c.isDispatch = true →
        c = Call.clEnqueueNDRangeKernel o.createCommandQueue.handle o.createKernel.handle 1 128
          none o.enqueueNDRangeKernel) ∧
      (r.status = 0 → r.trace.filter Call.isDispatch =
        [Call.clEnqueueNDRangeKernel o.createCommandQueue.handle o.createKernel.handle 1 128
          none o.enqueueNDRangeKernel]) ∧
      r2.trace.filter Call.isDispatch = r.trace.filter Call.isDispatch ∧
      r2.status = r.status := by
  obtain ⟨r, hr, hq, hnq, hst⟩ := dispatches_main o
  obtain ⟨r2, hr2, hq2, hnq2, hst2⟩ := dispatches_main { o with local_size := v }
  have hiff : pastQuery { o with local_size := v } ↔ pastQuery o := Iff.rfl
  have hiffd : pastDownload { o with local_size := v } ↔ pastDownload o := Iff.rfl
  refine ⟨r, r2, hr, hr2, ?_, ?_, ?_, ?_⟩
  · intro c hc hd
    have hmem : c ∈ r.trace.filter Call.isDispatch := List.mem_filter.mpr ⟨hc, hd⟩
    by_cases hp : pastQuery o
    · rw [hq hp] at hmem
      exact List.mem_singleton.mp hmem
    · rw [hnq hp] at hmem
      exact absurd hmem (List.not_mem_nil _)
  · intro h0
    exact hq ((hst.2.1 h0).1.1)
  · by_cases hp : pastQuery o
    · rw [hq hp, hq2 (hiff.mpr hp)]
    · rw [hnq hp, hnq2 (fun h => hp (hiff.mp h))]
  · by_cases hp : pastDownload o
    · rw [hst.1 hp, hst2.1 (hiffd.mpr hp)]
    · have h1 : r.status = 1 := by
        rcases hst.2.2 with h | h
        · exact absurd (hst.2.1 h) hp
        · exact h
      have h2 : r2.status = 1 := by
        rcases hst2.2.2 with h | h
        · exact absurd (hiffd.mp (hst2.2.1 h)) hp
        · exact h
      rw [h1, h2]

end Cube
